import Mathlib

/-!
Verification development for the FilePromtForge01 repository.

The repository contains two parallel implementations of the same pipeline:
`src/Installer/installer.py` and `src/gpt_processor_main.py`.  Both are
embedded here; definitions carrying the `installer_` prefix model the
Installer variant and definitions carrying the `gpt_main_` prefix model the
`gpt_processor_main.py` variant.  Pure Python functions become Lean
functions; the filesystem and the remote completion service become explicit
oracles, and side effects (reads, writes, log lines, sleeps, remote calls)
are recorded in an explicit event trace.
-/

/-- A Python exception value, identified by its class and message.
The classes are those that appear in the source: `RateLimitError` and
`OpenAIError` from the openai package, `FileNotFoundError`, `IOError`,
`UnicodeDecodeError`, `RuntimeError` (what a bare `raise` outside an
active handler produces), a generic catch-all for any other `Exception`,
and `RetriesExhaustedError`, which is modelled from the spec (section 7
names it) — the source defines no such class, which is what claim C2 is
about. -/
inductive PyExc where
  | rateLimitError (msg : String)
  | openAIError (msg : String)
  | fileNotFoundError (msg : String)
  | ioError (msg : String)
  | unicodeDecodeError (msg : String)
  | runtimeError (msg : String)
  | otherError (msg : String)
  | retriesExhaustedError (msg : String)
  deriving DecidableEq, Repr

/-- The observable side effects of one run, recorded in order. -/
inductive Event where
  | fsRead (path : String)
  | fsWrite (path : String) (content : String)
  | logError (msg : String)
  | logInfo (msg : String)
  | sleep (seconds : Nat)
  | apiCall (attempt : Nat)
  deriving DecidableEq, Repr

/-- One file as the program can observe it.  Python reads bytes and decodes
them, so a file is either valid UTF-8 (both decodings succeed and agree on
the model's level of abstraction), a byte sequence that is not valid UTF-8
(UTF-8 decoding raises `UnicodeDecodeError`; Latin-1 decoding always
succeeds and yields `latin1Text`), or present but unreadable (permission
error and the like). -/
inductive FsEntry where
  | utf8File (content : String)
  | binaryFile (latin1Text : String)
  | unreadable (msg : String)
  deriving DecidableEq, Repr

/-- Outcome of `open(path, 'w'); write(content)` at a given path, as an
oracle of the environment.  `open(path, 'w')` truncates an existing file
or creates a new one BEFORE any content is written, so a failure during
the write itself (disk full, unencodable text) leaves an empty or partial
artifact:
  - `ok`: open and write both succeed;
  - `openFail`: `open` itself raises (permission, missing directory) —
    no filesystem effect;
  - `writeFail written`: `open` succeeded (truncate/create happened) and
    the write raised after the first `written` characters landed. -/
inductive WriteResult where
  | ok
  | openFail (msg : String)
  | writeFail (written : Nat) (msg : String)
  deriving DecidableEq, Repr

/-- The mutable world: file contents by absolute path, plus an oracle
giving the outcome of a write attempt at each path.  A missing file is
`none`. -/
structure World where
  files : String → Option FsEntry
  writes : String → WriteResult

/-- Outcome of one per-document task: whether an output artifact was
written, and the task's event trace. -/
structure TaskOutcome where
  success : Bool
  events : List Event
  deriving DecidableEq, Repr

/-! ### String helpers modelling Python primitives -/

/-- Python's `str.strip()` with no arguments: drop leading and trailing
whitespace characters.  (Python strips the full Unicode whitespace class;
the characters that occur in this program's separators are all covered by
`Char.isWhitespace`.)  Trailing side first, on the reversed list. -/
def dropTrailingWs (l : List Char) : List Char :=
  (l.reverse.dropWhile Char.isWhitespace).reverse

def pyStripList (l : List Char) : List Char :=
  (dropTrailingWs l).dropWhile Char.isWhitespace

def pyStrip (s : String) : String :=
  ⟨pyStripList s.data⟩

/-- The first `k` characters of `s`: the portion of the content that a
partially failed write leaves in the file. -/
def pyTake (s : String) (k : Nat) : String :=
  ⟨s.data.take k⟩

/-- `sep.join(l)` as used in `gpt_processor_main.load_prompts`, and the
spec's "concatenated with a separator between consecutive fragments". -/
def joinSep (sep : String) : List String → String
  | [] => ""
  | [x] => x
  | x :: y :: rest => x ++ sep ++ joinSep sep (y :: rest)

/-- Path of a document with basename `f` inside directory `dir`
(`os.path.join` with plain basenames). -/
def inPath (dir f : String) : String := dir ++ "/" ++ f

/-- Installer variant output path: `os.path.join(output_dir,
os.path.basename(input_file))` — document ids are modelled as plain
basenames, so the basename of `inputDir ++ "/" ++ f` is `f`. -/
def outPathInstaller (outputDir f : String) : String := outputDir ++ "/" ++ f

/-- gpt_processor_main variant output path:
`os.path.join(output_dir, "response_" + os.path.basename(input_file))`. -/
def outPathMain (outputDir f : String) : String := outputDir ++ "/response_" ++ f

/-! ### PromptManager -/

/-- `PromptManager.load_prompts` of `src/Installer/installer.py` lines
101-114.  `fs` maps a fragment name to its text (the file under
`prompts_dir`), `cache` is `self.cache`, `combined` is the accumulator
`combined_prompt`.  The separator is the source's default `"\n\n"`.
A cache hit appends the cached value without a filesystem read; a miss on a
missing file raises `FileNotFoundError`; a miss on a present file reads it
(one `fsRead` event), fills the cache and appends.  The final result is
`combined_prompt.strip()`. -/
def installer_load_prompts_aux (fs : String → Option String)
    (cache : List (String × String)) (combined : String) :
    List String → Except PyExc String × List Event
  | [] => (Except.ok (pyStrip combined), [])
  | p :: rest =>
    match List.lookup p cache with
    | some c => installer_load_prompts_aux fs cache (combined ++ c ++ "\n\n") rest
    | none =>
      match fs p with
      | none =>
        (Except.error (PyExc.fileNotFoundError
          ("Prompt file '" ++ p ++ "' not found.")), [])
      | some c =>
        let r := installer_load_prompts_aux fs ((p, c) :: cache)
          (combined ++ c ++ "\n\n") rest
        (r.1, Event.fsRead p :: r.2)

/-- Entry point: `PromptManager` is constructed with an empty cache. -/
def installer_load_prompts (fs : String → Option String)
    (promptFiles : List String) : Except PyExc String × List Event :=
  installer_load_prompts_aux fs [] "" promptFiles

/-- `PromptManager.load_prompts` of `src/gpt_processor_main.py` lines
104-112.  No cache; a read failure is logged and the fragment skipped; the
result is `"\n".join(prompts)` (single newline, no strip, never raises). -/
def gpt_main_load_prompts_aux (fs : String → Option String) :
    List String → List String × List Event
  | [] => ([], [])
  | p :: rest =>
    match fs p with
    | none =>
      let r := gpt_main_load_prompts_aux fs rest
      (r.1, Event.logError ("Error reading prompt file '" ++ p ++ "'") :: r.2)
    | some c =>
      let r := gpt_main_load_prompts_aux fs rest
      (c :: r.1, Event.fsRead p :: r.2)

def gpt_main_load_prompts (fs : String → Option String)
    (promptFiles : List String) : String × List Event :=
  let r := gpt_main_load_prompts_aux fs promptFiles
  (joinSep "\n" r.1, r.2)

/-! ### FileHandler -/

/-- `FileHandler.read_file` of `src/Installer/installer.py` lines 129-137:
open as UTF-8; on `UnicodeDecodeError` re-open as Latin-1 (a second read);
any other failure raises `IOError`. -/
def installer_read_file (w : World) (path : String) :
    Except PyExc String × List Event :=
  match w.files path with
  | some (FsEntry.utf8File c) => (Except.ok c, [Event.fsRead path])
  | some (FsEntry.binaryFile c) => (Except.ok c, [Event.fsRead path, Event.fsRead path])
  | some (FsEntry.unreadable m) =>
    (Except.error (PyExc.ioError ("Error reading file '" ++ path ++ "': " ++ m)), [])
  | none =>
    (Except.error (PyExc.ioError
      ("Error reading file '" ++ path ++ "': No such file or directory")), [])

/-- `FileHandler.read_file` of `src/gpt_processor_main.py` lines 127-133:
any exception (missing file, permission, decode failure) is caught, logged,
and the empty string is returned.  No Latin-1 fallback, never raises. -/
def gpt_main_read_file (w : World) (path : String) : String × List Event :=
  match w.files path with
  | some (FsEntry.utf8File c) => (c, [Event.fsRead path])
  | some (FsEntry.binaryFile _) =>
    ("", [Event.logError ("Error reading file '" ++ path ++ "': decode failed")])
  | some (FsEntry.unreadable m) =>
    ("", [Event.logError ("Error reading file '" ++ path ++ "': " ++ m)])
  | none =>
    ("", [Event.logError
      ("Error reading file '" ++ path ++ "': No such file or directory")])

/-- `FileHandler.write_output` of `src/Installer/installer.py` lines
139-146: `with open(output_file, 'w') as file: file.write(content)`,
returning the output path; on failure raise `IOError`.  Because
`open(..., 'w')` truncates/creates before writing, a failure during the
write itself leaves the first `k` characters as a partial artifact; only a
failure of `open` itself leaves the filesystem untouched. -/
def installer_write_output (w : World) (outputDir f content : String) :
    Except PyExc String × World × List Event :=
  let out := outPathInstaller outputDir f
  match w.writes out with
  | WriteResult.ok =>
    (Except.ok out,
     { w with files := fun p => if p = out then some (FsEntry.utf8File content) else w.files p },
     [Event.fsWrite out content])
  | WriteResult.openFail m =>
    (Except.error (PyExc.ioError ("Error writing to file '" ++ out ++ "': " ++ m)),
     w, [])
  | WriteResult.writeFail k m =>
    (Except.error (PyExc.ioError ("Error writing to file '" ++ out ++ "': " ++ m)),
     { w with files := fun p =>
         if p = out then some (FsEntry.utf8File (pyTake content k)) else w.files p },
     [Event.fsWrite out (pyTake content k)])

/-- `FileHandler.write_file` of `src/gpt_processor_main.py` lines 135-140:
the same truncate-then-write, but any failure is caught and logged inside
the method — it never raises.  The Bool reports whether the full write
happened. -/
def gpt_main_write_file (w : World) (path content : String) :
    Bool × World × List Event :=
  match w.writes path with
  | WriteResult.ok =>
    (true,
     { w with files := fun p => if p = path then some (FsEntry.utf8File content) else w.files p },
     [Event.fsWrite path content])
  | WriteResult.openFail m =>
    (false, w, [Event.logError ("Error writing to file '" ++ path ++ "': " ++ m)])
  | WriteResult.writeFail k m =>
    (false,
     { w with files := fun p =>
         if p = path then some (FsEntry.utf8File (pyTake content k)) else w.files p },
     [Event.fsWrite path (pyTake content k),
      Event.logError ("Error writing to file '" ++ path ++ "': " ++ m)])

/-! ### APIClient.send_prompt

`APIClient.send_prompt` is textually identical in the two variants
(`src/Installer/installer.py` lines 158-185, `src/gpt_processor_main.py`
lines 152-179), so a single definition models both.  The remote service is
an oracle `call : Nat → Except PyExc String` giving, for each attempt
number, either the first choice's raw message content or the exception the
call raises.  (In `process_file` the oracle is obtained from a
prompt-indexed oracle, so the response may depend on both prompts.) -/

def errLogMsg (attempt : Nat) (e : PyExc) : String :=
  match e with
  | PyExc.rateLimitError m =>
    "Rate limit exceeded on attempt " ++ (toString attempt ++ ": " ++ m)
  | PyExc.openAIError m =>
    "OpenAI API error on attempt " ++ (toString attempt ++ ": " ++ m)
  | PyExc.fileNotFoundError m =>
    "Unexpected error on attempt " ++ (toString attempt ++ ": " ++ m)
  | PyExc.ioError m =>
    "Unexpected error on attempt " ++ (toString attempt ++ ": " ++ m)
  | PyExc.unicodeDecodeError m =>
    "Unexpected error on attempt " ++ (toString attempt ++ ": " ++ m)
  | PyExc.runtimeError m =>
    "Unexpected error on attempt " ++ (toString attempt ++ ": " ++ m)
  | PyExc.otherError m =>
    "Unexpected error on attempt " ++ (toString attempt ++ ": " ++ m)
  | PyExc.retriesExhaustedError m =>
    "Unexpected error on attempt " ++ (toString attempt ++ ": " ++ m)

def retryLogMsg (seconds : Nat) : String :=
  "Retrying in " ++ (toString seconds ++ " seconds...")

def maxRetriesMsg : String :=
  "Max retries reached. Failed to get a response from OpenAI API."

/-- The `for attempt in range(1, max_retries + 1)` loop body, entered at
attempt number `attempt`.  On success the first result's text is returned
stripped; on an exception the handler logs the condition; if `attempt <
max_retries` the loop sleeps `backoff_factor ** attempt` and retries,
otherwise it logs the max-retries line and executes a bare `raise`.  That
`raise` sits at the same indentation as the `except` clauses — OUTSIDE the
handlers — and in Python 3 the caught exception is cleared when the
handler suite exits, so the bare `raise` does not re-raise the caught
exception: it raises `RuntimeError('No active exception to reraise')`. -/
def sendPromptAux (call : Nat → Except PyExc String) (B R attempt : Nat) :
    Except PyExc String × List Event :=
  match call attempt with
  | Except.ok s => (Except.ok (pyStrip s), [Event.apiCall attempt])
  | Except.error e =>
    if _h : attempt < R then
      let r := sendPromptAux call B R (attempt + 1)
      (r.1, Event.apiCall attempt :: Event.logError (errLogMsg attempt e)
        :: Event.logInfo (retryLogMsg (B ^ attempt))
        :: Event.sleep (B ^ attempt) :: r.2)
    else
      (Except.error (PyExc.runtimeError "No active exception to reraise"),
       [Event.apiCall attempt, Event.logError (errLogMsg attempt e),
        Event.logError maxRetriesMsg])
termination_by R - attempt
decreasing_by omega

/-- `send_prompt`: the loop starts at attempt 1.  In the program
`max_retries` is always 3 (the constructor default; no caller overrides
it), so `R = 0` — where Python's loop body would never run and the function
would return `None` — is unreachable and not represented. -/
def send_prompt (call : Nat → Except PyExc String) (B R : Nat) :
    Except PyExc String × List Event :=
  sendPromptAux call B R 1

/-! ### process_file -/

/-- Python's `str(e)`: the exception's message. -/
def pyExcMsg : PyExc → String
  | PyExc.rateLimitError m => m
  | PyExc.openAIError m => m
  | PyExc.fileNotFoundError m => m
  | PyExc.ioError m => m
  | PyExc.unicodeDecodeError m => m
  | PyExc.runtimeError m => m
  | PyExc.otherError m => m
  | PyExc.retriesExhaustedError m => m

/-- Catch-all log line of `installer.process_file` (line 206). -/
def installerProcessErrMsg (inputPath : String) (e : PyExc) : String :=
  "Error processing '" ++ inputPath ++ "': " ++ pyExcMsg e

/-- `process_file` of `src/Installer/installer.py` lines 199-206: read,
send, write — the whole body inside one `try`; any exception is caught and
logged with the document's path; on success an info line is logged.
`api sp up n` is the remote oracle for system prompt `sp` and user prompt
`up` at attempt `n`. -/
def installer_process_file (w : World)
    (api : String → String → Nat → Except PyExc String) (B R : Nat)
    (inputDir outputDir f sp : String) : TaskOutcome × World :=
  match installer_read_file w (inPath inputDir f) with
  | (Except.error e, rEvs) =>
    ({ success := false,
       events := rEvs ++ [Event.logError (installerProcessErrMsg (inPath inputDir f) e)] }, w)
  | (Except.ok up, rEvs) =>
    match send_prompt (api sp up) B R with
    | (Except.error e, sEvs) =>
      ({ success := false,
         events := rEvs ++ sEvs ++
           [Event.logError (installerProcessErrMsg (inPath inputDir f) e)] }, w)
    | (Except.ok resp, sEvs) =>
      match installer_write_output w outputDir f resp with
      | (Except.error e, w2, wEvs) =>
        ({ success := false,
           events := rEvs ++ sEvs ++ wEvs ++
             [Event.logError (installerProcessErrMsg (inPath inputDir f) e)] }, w2)
      | (Except.ok out, w2, wEvs) =>
        ({ success := true,
           events := rEvs ++ sEvs ++ wEvs ++
             [Event.logInfo ("Processed '" ++ inPath inputDir f ++
               "' and saved to '" ++ out ++ "'.")] }, w2)

/-- `process_file` of `src/gpt_processor_main.py` lines 196-206: the read
is outside the `try` (but `read_file` never raises); an empty user prompt
is logged and the task returns before any remote call; otherwise send and
write run inside a `try` whose handler logs with the document's path.
`write_file` swallows its own errors, so `success` records whether the
write actually happened. -/
def gpt_main_process_file (w : World)
    (api : String → String → Nat → Except PyExc String) (B R : Nat)
    (inputDir outputDir f sp : String) : TaskOutcome × World :=
  match gpt_main_read_file w (inPath inputDir f) with
  | (up, rEvs) =>
    if up = "" then
      ({ success := false,
         events := rEvs ++
           [Event.logError ("User prompt is empty for file '" ++ inPath inputDir f ++ "'")] }, w)
    else
      match send_prompt (api sp up) B R with
      | (Except.error e, sEvs) =>
        ({ success := false,
           events := rEvs ++ sEvs ++
             [Event.logError ("Error processing file '" ++ inPath inputDir f ++ "': " ++
               pyExcMsg e)] }, w)
      | (Except.ok resp, sEvs) =>
        match gpt_main_write_file w (outPathMain outputDir f) resp with
        | (ok, w2, wEvs) =>
          ({ success := ok, events := rEvs ++ sEvs ++ wEvs }, w2)

/-! ### Orchestrator -/

/-- Submitting one task per document.  The tasks run concurrently in the
source; because (as proven below) tasks touch disjoint parts of the world,
any interleaving is equivalent to this sequential one, which the batch
model fixes.  The result pairs each document with its task outcome. -/
def run_batch (step : World → String → TaskOutcome × World) :
    World → List String → List (String × TaskOutcome) × World
  | w, [] => ([], w)
  | w, f :: rest =>
    let r := step w f
    let rr := run_batch step r.2 rest
    ((f, r.1) :: rr.1, rr.2)

def installer_step (api : String → String → Nat → Except PyExc String)
    (B R : Nat) (inputDir outputDir sp : String) :
    World → String → TaskOutcome × World :=
  fun w f => installer_process_file w api B R inputDir outputDir f sp

def gpt_main_step (api : String → String → Nat → Except PyExc String)
    (B R : Nat) (inputDir outputDir sp : String) :
    World → String → TaskOutcome × World :=
  fun w f => gpt_main_process_file w api B R inputDir outputDir f sp

/-- The claim-relevant slice of `installer.main` (lines 263-280): compose
the system prompt; if composition raises, log and exit 1 with no task
dispatched; otherwise dispatch one task per document.  Result: (exit code,
per-task outcomes, final world, setup events).  Configuration loading,
directory creation and default-prompt creation (external collaborators per
the spec) are outside the modelled slice; `docs` is the result of
`list_input_files()`. -/
def installer_run (w : World) (promptFs : String → Option String)
    (promptFiles : List String)
    (api : String → String → Nat → Except PyExc String) (B R : Nat)
    (inputDir outputDir : String) (docs : List String) :
    Nat × List (String × TaskOutcome) × World × List Event :=
  match installer_load_prompts promptFs promptFiles with
  | (Except.error e, evs) =>
    (1, [], w, evs ++ [Event.logError (installerProcessErrMsg "" e)])
  | (Except.ok sp, evs) =>
    let r := run_batch (installer_step api B R inputDir outputDir sp) w docs
    (0, r.1, r.2, evs)

/-- The same slice of `gpt_processor_main.main` (lines 311-329): compose
(never raises) and dispatch one task per document unconditionally. -/
def gpt_main_run (w : World) (promptFs : String → Option String)
    (promptFiles : List String)
    (api : String → String → Nat → Except PyExc String) (B R : Nat)
    (inputDir outputDir : String) (docs : List String) :
    List (String × TaskOutcome) × World × List Event :=
  match gpt_main_load_prompts promptFs promptFiles with
  | (sp, evs) =>
    let r := run_batch (gpt_main_step api B R inputDir outputDir sp) w docs
    (r.1, r.2, evs)

/-! ### Worker pool

Both variants size the pool as `min(5, len(input_files))` with the ceiling
5 hardcoded (`installer.py` line 277, `gpt_processor_main.py` line 327).
`ThreadPoolExecutor` semantics (an external collaborator) are modelled as a
transition system: at most `cap` submitted tasks are active at once. -/

def main_max_workers (n : Nat) : Nat := min 5 n

/-- Modelled from the spec: the pool size formula of spec section 4.4,
`min(configured_max_workers, number_of_documents)` with a configurable
ceiling — stated for comparison with `main_max_workers`, where the source
hardcodes the ceiling to 5. -/
def spec_pool_size (ceiling n : Nat) : Nat := min ceiling n

structure PoolState where
  pending : Nat
  active : Nat
  finished : Nat
  deriving DecidableEq, Repr

/-- One scheduler transition of a pool with capacity `cap`: start a pending
task when a worker is free, or finish an active task. -/
inductive PoolStep (cap : Nat) : PoolState → PoolState → Prop
  | start (s : PoolState) : 0 < s.pending → s.active < cap →
      PoolStep cap s ⟨s.pending - 1, s.active + 1, s.finished⟩
  | finish (s : PoolState) : 0 < s.active →
      PoolStep cap s ⟨s.pending, s.active - 1, s.finished + 1⟩

/-- States reachable during a run over `n` documents with capacity `cap`. -/
inductive PoolReachable (cap n : Nat) : PoolState → Prop
  | init : PoolReachable cap n ⟨n, 0, 0⟩
  | step (s t : PoolState) : PoolReachable cap n s → PoolStep cap s t →
      PoolReachable cap n t

/-! ### Trace observers -/

def isMaxRetriesLog : Event → Bool
  | Event.logError m => m == maxRetriesMsg
  | _ => false

/-- Number of retries-exhausted log entries in a trace. -/
def countMaxRetries (evs : List Event) : Nat := evs.countP isMaxRetriesLog

def isFsWrite : Event → Bool
  | Event.fsWrite _ _ => true
  | _ => false

def isApiCall : Event → Bool
  | Event.apiCall _ => true
  | _ => false

/-- Number of filesystem reads of `path` in a trace. -/
def countReads (path : String) (evs : List Event) : Nat :=
  evs.countP fun e => e == Event.fsRead path

/-- Backoff sleep durations of a trace, in order. -/
def sleepsOf (evs : List Event) : List Nat :=
  evs.filterMap fun e =>
    match e with
    | Event.sleep t => some t
    | _ => none

/-- The string `m` mentions `sub` (Python substring containment). -/
def MentionsStr (m sub : String) : Prop := ∃ a b, m = a ++ (sub ++ b)

deriving instance DecidableEq for Except

/-- The accumulator shape produced by `installer_load_prompts_aux`: each
fragment's content followed by the separator. -/
def catSep (content : String → String) : List String → String
  | [] => ""
  | n :: rest => content n ++ ("\n\n" ++ catSep content rest)

/-- `s` contains `sub` twice (two disjoint occurrences, in order). -/
def ContainsTwice (s sub : String) : Prop :=
  ∃ a b d, s = a ++ sub ++ b ++ sub ++ d

/-- Whether an exception is the `RetriesExhaustedError` the spec names. -/
def isRetriesExhausted : PyExc → Bool
  | PyExc.retriesExhaustedError _ => true
  | _ => false

/-! ## Helper lemmas -/

theorem string_ext_data {s t : String} (h : s.data = t.data) : s = t := by
  cases s; cases t; exact congrArg String.mk h

theorem dropWhile_length_le (p : Char → Bool) (l : List Char) :
    (List.dropWhile p l).length ≤ l.length := by
  induction l with
  | nil => simp
  | cons a t ih =>
    by_cases h : p a
    · simp [List.dropWhile_cons, h]
      omega
    · simp [List.dropWhile_cons, h]

theorem dropWhile_eq_self_of_length (p : Char → Bool) (l : List Char)
    (h : (List.dropWhile p l).length = l.length) : List.dropWhile p l = l := by
  cases l with
  | nil => simp
  | cons a t =>
    by_cases hp : p a
    · rw [List.dropWhile_cons, if_pos hp] at h
      have := dropWhile_length_le p t
      simp at h
      omega
    · rw [List.dropWhile_cons, if_neg hp]

theorem dropWhile_append_of_head (p : Char → Bool) (x : Char) (xs m : List Char)
    (h : p x = false) :
    List.dropWhile p ((x :: xs) ++ m) = (x :: xs) ++ m := by
  simp [List.dropWhile_cons, h]

theorem str_append_ne_of_head (x y t : String) (c d : Char)
    (hx : x.data.head? = some c) (hy : y.data.head? = some d) (hcd : c ≠ d) :
    x ++ t ≠ y := by
  intro h
  have hd : x.data ++ t.data = y.data := by
    have h2 := congrArg String.data h
    rwa [String.data_append] at h2
  cases hxd : x.data with
  | nil => rw [hxd] at hx; simp at hx
  | cons a as =>
    rw [hxd] at hx hd
    cases hyd : y.data with
    | nil => rw [hyd] at hy; simp at hy
    | cons b bs =>
      rw [hyd] at hy hd
      simp only [List.cons_append, List.cons.injEq] at hd
      simp only [List.head?_cons, Option.some.injEq] at hx hy
      exact hcd (hx ▸ hy ▸ hd.1)

theorem pyStrip_append_sep (s : String) : pyStrip (s ++ "\n\n") = pyStrip s := by
  apply string_ext_data
  show pyStripList (s ++ "\n\n").data = pyStripList s.data
  rw [String.data_append]
  show pyStripList (s.data ++ ['\n', '\n']) = pyStripList s.data
  unfold pyStripList dropTrailingWs
  rw [List.reverse_append]
  show ((List.dropWhile Char.isWhitespace
    ('\n' :: '\n' :: s.data.reverse)).reverse).dropWhile Char.isWhitespace = _
  rw [List.dropWhile_cons, if_pos (by decide), List.dropWhile_cons, if_pos (by decide)]

theorem errLogMsg_ne_max (n : Nat) (e : PyExc) : errLogMsg n e ≠ maxRetriesMsg := by
  cases e <;> simp only [errLogMsg] <;>
    first
      | exact str_append_ne_of_head "Rate limit exceeded on attempt " maxRetriesMsg _
          'R' 'M' (by decide) (by decide) (by decide)
      | exact str_append_ne_of_head "OpenAI API error on attempt " maxRetriesMsg _
          'O' 'M' (by decide) (by decide) (by decide)
      | exact str_append_ne_of_head "Unexpected error on attempt " maxRetriesMsg _
          'U' 'M' (by decide) (by decide) (by decide)

theorem isMaxRetriesLog_errLog (n : Nat) (e : PyExc) :
    isMaxRetriesLog (Event.logError (errLogMsg n e)) = false := by
  simp [isMaxRetriesLog]
  exact errLogMsg_ne_max n e

/-! ## send_prompt unfolding lemmas -/

theorem sendPromptAux_ok (call : Nat → Except PyExc String) (B R a : Nat)
    (t : String) (h : call a = Except.ok t) :
    sendPromptAux call B R a = (Except.ok (pyStrip t), [Event.apiCall a]) := by
  rw [sendPromptAux, h]

theorem sendPromptAux_retry (call : Nat → Except PyExc String) (B R a : Nat)
    (e : PyExc) (h : call a = Except.error e) (hlt : a < R) :
    sendPromptAux call B R a =
      ((sendPromptAux call B R (a + 1)).1,
       Event.apiCall a :: Event.logError (errLogMsg a e)
        :: Event.logInfo (retryLogMsg (B ^ a)) :: Event.sleep (B ^ a)
        :: (sendPromptAux call B R (a + 1)).2) := by
  rw [sendPromptAux, h]
  simp [hlt]

theorem sendPromptAux_last (call : Nat → Except PyExc String) (B R a : Nat)
    (e : PyExc) (h : call a = Except.error e) (hge : ¬ a < R) :
    sendPromptAux call B R a =
      (Except.error (PyExc.runtimeError "No active exception to reraise"),
       [Event.apiCall a, Event.logError (errLogMsg a e),
        Event.logError maxRetriesMsg]) := by
  rw [sendPromptAux, h]
  simp [hge]

/-- Core of claim C3: from attempt `a`, after `k` failing attempts and a
success at attempt `a + k`, the loop returns the stripped text and sleeps
exactly the backoff durations of attempts `a .. a+k-1`. -/
theorem sendPromptAux_succeeds (call : Nat → Except PyExc String) (B R : Nat) :
    ∀ (k a : Nat) (t : String),
      (∀ j, j < k → ∃ e, call (a + j) = Except.error e) →
      call (a + k) = Except.ok t → a + k ≤ R →
      (sendPromptAux call B R a).1 = Except.ok (pyStrip t) ∧
      sleepsOf (sendPromptAux call B R a).2 =
        (List.range' a k).map (fun i => B ^ i) := by
  intro k
  induction k with
  | zero =>
    intro a t _ hok _
    rw [Nat.add_zero] at hok
    rw [sendPromptAux_ok call B R a t hok]
    simp [sleepsOf]
  | succ k ih =>
    intro a t hfail hok hle
    obtain ⟨e, he⟩ := hfail 0 (Nat.succ_pos k)
    rw [Nat.add_zero] at he
    have hlt : a < R := by omega
    have ih' := ih (a + 1) t
      (fun j hj => by
        obtain ⟨e2, he2⟩ := hfail (j + 1) (by omega)
        exact ⟨e2, by rwa [show a + (j + 1) = a + 1 + j from by omega] at he2⟩)
      (by rwa [show a + 1 + k = a + (k + 1) from by omega])
      (by omega)
    rw [sendPromptAux_retry call B R a e he hlt]
    refine ⟨ih'.1, ?_⟩
    simp only [sleepsOf, List.filterMap_cons]
    rw [List.range'_succ]
    simp only [List.map_cons]
    exact congrArg (B ^ a :: ·) ih'.2

/-- Core of claim C2: when every attempt from `a` through `R` fails, the
loop ends in the bare `raise`, which — executing outside the `except`
handlers — raises `RuntimeError('No active exception to reraise')`; the
max-retries line is logged exactly once. -/
theorem sendPromptAux_exhausts (call : Nat → Except PyExc String) (B R : Nat) :
    ∀ (k a : Nat), a + k = R →
      (∀ j, a ≤ j → j ≤ R → ∃ e, call j = Except.error e) →
      (sendPromptAux call B R a).1 =
        Except.error (PyExc.runtimeError "No active exception to reraise") ∧
      countMaxRetries (sendPromptAux call B R a).2 = 1 := by
  intro k
  induction k with
  | zero =>
    intro a ha hfail
    have haR : a = R := by omega
    obtain ⟨e, he⟩ := hfail a (Nat.le_refl a) (by omega)
    rw [haR] at he ⊢
    rw [sendPromptAux_last call B R R e he (by omega)]
    refine ⟨rfl, ?_⟩
    simp [countMaxRetries, List.countP_cons, isMaxRetriesLog_errLog, isMaxRetriesLog,
      errLogMsg_ne_max R e]
  | succ k ih =>
    intro a ha hfail
    obtain ⟨e, he⟩ := hfail a (Nat.le_refl a) (by omega)
    have hlt : a < R := by omega
    have ih' := ih (a + 1) (by omega) (fun j hj1 hj2 => hfail j (by omega) hj2)
    rw [sendPromptAux_retry call B R a e he hlt]
    refine ⟨ih'.1, ?_⟩
    simp only [countMaxRetries, List.countP_cons] at ih' ⊢
    simp [isMaxRetriesLog, isMaxRetriesLog_errLog, ih'.2, errLogMsg_ne_max a e]

theorem installerProcessErrMsg_ne_max (p : String) (e : PyExc) :
    installerProcessErrMsg p e ≠ maxRetriesMsg := by
  unfold installerProcessErrMsg
  rw [String.append_assoc, String.append_assoc]
  exact str_append_ne_of_head "Error processing '" maxRetriesMsg _ 'E' 'M'
    (by decide) (by decide) (by decide)

theorem installer_read_file_utf8 (w : World) (p up : String)
    (h : w.files p = some (FsEntry.utf8File up)) :
    installer_read_file w p = (Except.ok up, [Event.fsRead p]) := by
  simp [installer_read_file, h]

/-- C3: a document whose remote call fails on attempts `1..k` and succeeds
on attempt `k+1 ≤ R` gets exactly the backoff sleeps `B^1 .. B^k`, the
stripped text of the first result, and (with a writable output path) a
successful output artifact. -/
theorem C3_transient_failures_then_success
    (w : World) (api : String → String → Nat → Except PyExc String)
    (B R k : Nat) (iDir oDir f sp up t : String)
    (hread : w.files (inPath iDir f) = some (FsEntry.utf8File up))
    (hfail : ∀ j, 1 ≤ j → j ≤ k → ∃ e, api sp up j = Except.error e)
    (hok : api sp up (k + 1) = Except.ok t)
    (hkR : k + 1 ≤ R)
    (hw : w.writes (outPathInstaller oDir f) = WriteResult.ok) :
    (send_prompt (api sp up) B R).1 = Except.ok (pyStrip t) ∧
    sleepsOf (send_prompt (api sp up) B R).2 =
      (List.range' 1 k).map (fun i => B ^ i) ∧
    (installer_process_file w api B R iDir oDir f sp).1.success = true ∧
    (installer_process_file w api B R iDir oDir f sp).2.files
      (outPathInstaller oDir f) = some (FsEntry.utf8File (pyStrip t)) := by
  have hs := sendPromptAux_succeeds (api sp up) B R k 1 t
    (fun j hj => by
      obtain ⟨e, he⟩ := hfail (1 + j) (by omega) (by omega)
      exact ⟨e, he⟩)
    (by rwa [show 1 + k = k + 1 from by omega]) (by omega)
  have hr := installer_read_file_utf8 w (inPath iDir f) up hread
  refine ⟨hs.1, hs.2, ?_, ?_⟩ <;>
  · cases hsp : send_prompt (api sp up) B R with
    | mk res evs =>
      have hres : res = Except.ok (pyStrip t) := by
        have h1 := hs.1
        rw [show sendPromptAux (api sp up) B R 1 = (res, evs) from hsp] at h1
        exact h1
      subst hres
      simp [installer_process_file, hr, hsp, installer_write_output, hw]

/-- C2 (amended): when every one of the `R` attempts fails, the loop ends
at the bare `raise` of line 185 (resp. 179) — which sits OUTSIDE the
`except` handlers, where Python 3 has already cleared the caught
exception — so the caller receives `RuntimeError('No active exception to
reraise')`: neither a `RetriesExhaustedError` nor the final attempt's
typed error.  The max-retries line is logged exactly once and the
document's task fails leaving the world — in particular the output
directory — unchanged. -/
theorem C2_exhausted_retries_amended
    (w : World) (api : String → String → Nat → Except PyExc String)
    (B R : Nat) (iDir oDir f sp up : String)
    (hread : w.files (inPath iDir f) = some (FsEntry.utf8File up))
    (hR1 : 1 ≤ R)
    (hfail : ∀ j, 1 ≤ j → j ≤ R → ∃ e, api sp up j = Except.error e) :
    (send_prompt (api sp up) B R).1 =
      Except.error (PyExc.runtimeError "No active exception to reraise") ∧
    countMaxRetries (send_prompt (api sp up) B R).2 = 1 ∧
    (installer_process_file w api B R iDir oDir f sp).1.success = false ∧
    (installer_process_file w api B R iDir oDir f sp).2 = w ∧
    countMaxRetries (installer_process_file w api B R iDir oDir f sp).1.events = 1 := by
  have hs := sendPromptAux_exhausts (api sp up) B R (R - 1) 1 (by omega)
    (fun j h1 h2 => hfail j h1 h2)
  have hr := installer_read_file_utf8 w (inPath iDir f) up hread
  refine ⟨hs.1, hs.2, ?_, ?_, ?_⟩ <;>
  · cases hsp : send_prompt (api sp up) B R with
    | mk res evs =>
      have hres : res = Except.error (PyExc.runtimeError "No active exception to reraise") := by
        have h1 := hs.1
        rw [show sendPromptAux (api sp up) B R 1 = (res, evs) from hsp] at h1
        exact h1
      have hcnt : countMaxRetries evs = 1 := by
        have h2 := hs.2
        rw [show sendPromptAux (api sp up) B R 1 = (res, evs) from hsp] at h2
        exact h2
      subst hres
      simp only [countMaxRetries] at hcnt
      simp [installer_process_file, hr, hsp, countMaxRetries, List.countP_append,
        List.countP_cons, isMaxRetriesLog, installerProcessErrMsg_ne_max, hcnt]

/-- C2 counterexample: with `max_retries = 3` and every attempt failing
with a rate-limit error, the exception propagated to the caller is
`RuntimeError('No active exception to reraise')` — the bare `raise` runs
outside the `except` handlers, after Python 3 has cleared the caught
exception — not the `RetriesExhaustedError` the claim states (no such
class exists in the source), and not even the rate-limit error the final
attempt raised. -/
theorem C2_counterexample :
    (send_prompt (fun _ => Except.error (PyExc.rateLimitError "rl")) 2 3).1 =
      Except.error (PyExc.runtimeError "No active exception to reraise") ∧
    isRetriesExhausted (PyExc.runtimeError "No active exception to reraise") = false ∧
    (send_prompt (fun _ => Except.error (PyExc.rateLimitError "rl")) 2 3).1 ≠
      Except.error (PyExc.rateLimitError "rl") := by
  refine ⟨?_, rfl, ?_⟩
  · simp [send_prompt, sendPromptAux]
  · simp [send_prompt, sendPromptAux]

/-- C2 witness: the amended theorem instantiated at a concrete world and a
concrete always-failing oracle with `R = 3`. -/
theorem C2_exhausted_retries_witness :
    (send_prompt ((fun _ _ _ => Except.error (PyExc.openAIError "boom")) "s" "hello" :
        Nat → Except PyExc String) 2 3).1 =
      Except.error (PyExc.runtimeError "No active exception to reraise") ∧
    countMaxRetries (send_prompt ((fun _ _ _ => Except.error (PyExc.openAIError "boom")) "s" "hello" :
        Nat → Except PyExc String) 2 3).2 = 1 ∧
    (installer_process_file
      ⟨fun p => if p = "in/d" then some (FsEntry.utf8File "hello") else none, fun _ => WriteResult.ok⟩
      (fun _ _ _ => Except.error (PyExc.openAIError "boom")) 2 3 "in" "out" "d" "s").1.success = false ∧
    (installer_process_file
      ⟨fun p => if p = "in/d" then some (FsEntry.utf8File "hello") else none, fun _ => WriteResult.ok⟩
      (fun _ _ _ => Except.error (PyExc.openAIError "boom")) 2 3 "in" "out" "d" "s").2 =
      ⟨fun p => if p = "in/d" then some (FsEntry.utf8File "hello") else none, fun _ => WriteResult.ok⟩ ∧
    countMaxRetries (installer_process_file
      ⟨fun p => if p = "in/d" then some (FsEntry.utf8File "hello") else none, fun _ => WriteResult.ok⟩
      (fun _ _ _ => Except.error (PyExc.openAIError "boom")) 2 3 "in" "out" "d" "s").1.events = 1 :=
  C2_exhausted_retries_amended
    ⟨fun p => if p = "in/d" then some (FsEntry.utf8File "hello") else none, fun _ => WriteResult.ok⟩
    (fun _ _ _ => Except.error (PyExc.openAIError "boom")) 2 3 "in" "out" "d" "s" "hello"
    (by simp [inPath]) (by decide)
    (fun j h1 h2 => ⟨PyExc.openAIError "boom", rfl⟩)

/-- C3 witness: one rate-limit failure then success, with `R = 3`,
`B = 2`: one sleep of 2 seconds and the stripped response written. -/
theorem C3_transient_failures_witness :
    (send_prompt ((fun _ _ n => if n = 1 then Except.error (PyExc.rateLimitError "rl")
        else Except.ok " hi ") "s" "hello" : Nat → Except PyExc String) 2 3).1 =
      Except.ok (pyStrip " hi ") ∧
    sleepsOf (send_prompt ((fun _ _ n => if n = 1 then Except.error (PyExc.rateLimitError "rl")
        else Except.ok " hi ") "s" "hello" : Nat → Except PyExc String) 2 3).2 =
      (List.range' 1 1).map (fun i => 2 ^ i) ∧
    (installer_process_file
      ⟨fun p => if p = "in/d" then some (FsEntry.utf8File "hello") else none, fun _ => WriteResult.ok⟩
      (fun _ _ n => if n = 1 then Except.error (PyExc.rateLimitError "rl") else Except.ok " hi ")
      2 3 "in" "out" "d" "s").1.success = true ∧
    (installer_process_file
      ⟨fun p => if p = "in/d" then some (FsEntry.utf8File "hello") else none, fun _ => WriteResult.ok⟩
      (fun _ _ n => if n = 1 then Except.error (PyExc.rateLimitError "rl") else Except.ok " hi ")
      2 3 "in" "out" "d" "s").2.files (outPathInstaller "out" "d") =
      some (FsEntry.utf8File (pyStrip " hi ")) :=
  C3_transient_failures_then_success
    ⟨fun p => if p = "in/d" then some (FsEntry.utf8File "hello") else none, fun _ => WriteResult.ok⟩
    (fun _ _ n => if n = 1 then Except.error (PyExc.rateLimitError "rl") else Except.ok " hi ")
    2 3 1 "in" "out" "d" "s" "hello" " hi "
    (by decide)
    (fun j h1 h2 => ⟨PyExc.rateLimitError "rl", by
      have hj : j = 1 := by omega
      subst hj
      rfl⟩)
    rfl (by decide) rfl

/-! ## pyStrip lemmas -/

theorem dropWhile_self_head (p : Char → Bool) (x : Char) (xs : List Char)
    (h : List.dropWhile p (x :: xs) = x :: xs) : p x = false := by
  by_cases hp : p x
  · rw [List.dropWhile_cons, if_pos hp] at h
    have hle := dropWhile_length_le p xs
    have hlen := congrArg List.length h
    simp at hlen
    omega
  · simpa using hp

/-- A string equal to its own strip is untouched by both trims. -/
theorem pyStrip_self_parts (l : List Char) (h : pyStripList l = l) :
    List.dropWhile Char.isWhitespace l = l ∧
    List.dropWhile Char.isWhitespace l.reverse = l.reverse := by
  have hlen1 : (List.dropWhile Char.isWhitespace l.reverse).length ≤ l.length := by
    have := dropWhile_length_le Char.isWhitespace l.reverse
    simpa using this
  have hlen2 : (dropTrailingWs l).length ≤ l.length := by
    simpa [dropTrailingWs] using hlen1
  have hlen3 : (pyStripList l).length ≤ (dropTrailingWs l).length :=
    dropWhile_length_le Char.isWhitespace (dropTrailingWs l)
  have hlenl : (pyStripList l).length = l.length := by rw [h]
  have hrev : List.dropWhile Char.isWhitespace l.reverse = l.reverse := by
    apply dropWhile_eq_self_of_length
    have : (List.dropWhile Char.isWhitespace l.reverse).length = l.length := by
      simp only [dropTrailingWs] at hlen2 hlen3
      simp at hlen3
      omega
    simpa using this
  have hdtw : dropTrailingWs l = l := by
    simp [dropTrailingWs, hrev]
  constructor
  · rw [← hdtw]
    calc List.dropWhile Char.isWhitespace (dropTrailingWs l)
        = pyStripList l := rfl
      _ = l := h
      _ = dropTrailingWs l := hdtw.symm
  · exact hrev

/-- The central strip fact for claim C6: a nonempty, already-stripped
fragment glued around any middle is untouched by the final strip. -/
theorem pyStripList_sandwich (l mid : List Char) (hne : l ≠ [])
    (h1 : List.dropWhile Char.isWhitespace l = l)
    (h2 : List.dropWhile Char.isWhitespace l.reverse = l.reverse) :
    pyStripList (l ++ mid ++ l) = l ++ mid ++ l := by
  obtain ⟨x, xs, hx⟩ := List.exists_cons_of_ne_nil hne
  have hrevne : l.reverse ≠ [] := by simp [hx]
  obtain ⟨y, ys, hy⟩ := List.exists_cons_of_ne_nil hrevne
  have hpx : Char.isWhitespace x = false := by
    apply dropWhile_self_head Char.isWhitespace x xs
    rw [← hx]
    exact h1
  have hpy : Char.isWhitespace y = false := by
    apply dropWhile_self_head Char.isWhitespace y ys
    rw [← hy]
    exact h2
  have hrev : (l ++ mid ++ l).reverse = l.reverse ++ (mid.reverse ++ l.reverse) := by
    simp [List.reverse_append]
  have hdtw : dropTrailingWs (l ++ mid ++ l) = l ++ mid ++ l := by
    unfold dropTrailingWs
    rw [hrev, hy, List.cons_append]
    rw [List.dropWhile_cons, if_neg (by simp [hpy])]
    rw [← List.cons_append, ← hy, ← hrev, List.reverse_reverse]
  unfold pyStripList
  rw [hdtw, hx]
  rw [show (x :: xs) ++ mid ++ (x :: xs) = x :: (xs ++ mid ++ (x :: xs)) from by simp]
  rw [List.dropWhile_cons, if_neg (by simp [hpx])]

/-! ## PromptManager lemmas -/

theorem catSep_eq_joinSep (content : String → String) :
    ∀ (l : List String), l ≠ [] →
      catSep content l = joinSep "\n\n" (l.map content) ++ "\n\n"
  | [], h => absurd rfl h
  | [x], _ => by simp [catSep, joinSep, String.append_empty]
  | x :: y :: rest, _ => by
    have ih := catSep_eq_joinSep content (y :: rest) (by simp)
    simp only [catSep] at ih ⊢
    rw [ih]
    simp [joinSep, String.append_assoc]

theorem pyStrip_catSep (content : String → String) (l : List String) :
    pyStrip (catSep content l) = pyStrip (joinSep "\n\n" (l.map content)) := by
  cases l with
  | nil => rfl
  | cons x rest =>
    rw [catSep_eq_joinSep content (x :: rest) (by simp), pyStrip_append_sep]

theorem installer_load_prompts_aux_ok (fs : String → Option String)
    (content : String → String) :
    ∀ (l : List String) (cache : List (String × String)) (combined : String),
      (∀ q c, List.lookup q cache = some c → c = content q) →
      (∀ n ∈ l, fs n = some (content n)) →
      (installer_load_prompts_aux fs cache combined l).1 =
        Except.ok (pyStrip (combined ++ catSep content l)) := by
  intro l
  induction l with
  | nil =>
    intro cache combined _ _
    simp [installer_load_prompts_aux, catSep, String.append_empty]
  | cons p rest ih =>
    intro cache combined hcache hl
    have hfp : fs p = some (content p) := hl p (List.mem_cons_self p rest)
    cases hq : List.lookup p cache with
    | some c =>
      have hc : c = content p := hcache p c hq
      subst hc
      simp only [installer_load_prompts_aux, hq]
      rw [ih cache _ hcache (fun n hn => hl n (List.mem_cons_of_mem p hn))]
      simp [catSep, String.append_assoc]
    | none =>
      simp only [installer_load_prompts_aux, hq, hfp]
      rw [ih ((p, content p) :: cache) _ ?_ (fun n hn => hl n (List.mem_cons_of_mem p hn))]
      · simp [catSep, String.append_assoc]
      · intro q c hqc
        rw [List.lookup_cons] at hqc
        split at hqc
        · rename_i hqp2
          have hqp3 : q = p := by simpa using hqp2
          subst hqp3
          simp at hqc
          exact hqc.symm
        · exact hcache q c hqc

/-- When every named fragment resolves, the Installer composition equals
the spec's separator-join of the contents — except that the final
`.strip()` trims all edge whitespace, not only the trailing separator. -/
theorem installer_load_prompts_ok (fs : String → Option String)
    (content : String → String) (names : List String)
    (h : ∀ n ∈ names, fs n = some (content n)) :
    (installer_load_prompts fs names).1 =
      Except.ok (pyStrip (joinSep "\n\n" (names.map content))) := by
  rw [installer_load_prompts,
    installer_load_prompts_aux_ok fs content names [] "" (by simp) h,
    String.empty_append, pyStrip_catSep]

theorem gpt_main_load_prompts_aux_ok (fs : String → Option String)
    (content : String → String) :
    ∀ (l : List String), (∀ n ∈ l, fs n = some (content n)) →
      (gpt_main_load_prompts_aux fs l).1 = l.map content
  | [], _ => rfl
  | p :: rest, h => by
    have hfp : fs p = some (content p) := h p (List.mem_cons_self p rest)
    simp only [gpt_main_load_prompts_aux, hfp, List.map_cons]
    rw [gpt_main_load_prompts_aux_ok fs content rest
      (fun n hn => h n (List.mem_cons_of_mem p hn))]

/-- The gpt_processor_main composition joins with a single newline and
does not strip. -/
theorem gpt_main_load_prompts_ok (fs : String → Option String)
    (content : String → String) (names : List String)
    (h : ∀ n ∈ names, fs n = some (content n)) :
    (gpt_main_load_prompts fs names).1 = joinSep "\n" (names.map content) := by
  rw [gpt_main_load_prompts, gpt_main_load_prompts_aux_ok fs content names h]

/-- C9 (amended): with every fragment resolving, the Installer variant
returns the separator-join of the contents with ALL leading and trailing
whitespace stripped from the final result (which removes the trailing
separator, but also any edge whitespace of the first and last fragments);
the gpt_processor_main variant joins with a single newline — not a blank
line — and does not strip. -/
theorem C9_compose_amended (fs : String → Option String)
    (content : String → String) (names : List String)
    (h : ∀ n ∈ names, fs n = some (content n)) :
    (installer_load_prompts fs names).1 =
      Except.ok (pyStrip (joinSep "\n\n" (names.map content))) ∧
    (gpt_main_load_prompts fs names).1 = joinSep "\n" (names.map content) :=
  ⟨installer_load_prompts_ok fs content names h,
   gpt_main_load_prompts_ok fs content names h⟩

/-- C9 witness: two fragments "A" and "B"; the Installer variant yields
the blank-line join (here strip is the identity) and the main variant the
single-newline join. -/
theorem C9_compose_witness :
    (installer_load_prompts
      (fun p => if p = "p" then some "A" else some "B") ["p", "q"]).1 =
      Except.ok (pyStrip (joinSep "\n\n"
        (["p", "q"].map (fun n => if n = "p" then "A" else "B")))) ∧
    (gpt_main_load_prompts
      (fun p => if p = "p" then some "A" else some "B") ["p", "q"]).1 =
      joinSep "\n" (["p", "q"].map (fun n => if n = "p" then "A" else "B")) :=
  C9_compose_amended (fun p => if p = "p" then some "A" else some "B")
    (fun n => if n = "p" then "A" else "B") ["p", "q"] (by decide)

/-- C9 counterexample: a single fragment whose content " a" has leading
whitespace.  The claim predicts the concatenation with the trailing
separator trimmed, i.e. " a"; the code's final `.strip()` returns "a".
Additionally, for two fragments the gpt_processor_main variant separates
with a single newline, not the blank line the claim states. -/
theorem C9_counterexample :
    (installer_load_prompts (fun p => if p = "p" then some " a" else none) ["p"]).1 =
      Except.ok "a" ∧
    joinSep "\n\n" [" a"] = " a" ∧
    ("a" : String) ≠ " a" ∧
    (gpt_main_load_prompts (fun p => if p = "p" then some "A" else some "B")
      ["p", "q"]).1 = "A\nB" ∧
    ("A\nB" : String) ≠ "A\n\nB" := by
  refine ⟨by decide, by decide, by decide, by decide, by decide⟩

/-! ## Cache lemmas (claim C6) -/

theorem installer_aux_countReads_le (fs : String → Option String) (p : String) :
    ∀ (l : List String) (cache : List (String × String)) (combined : String),
      countReads p (installer_load_prompts_aux fs cache combined l).2 ≤
        (if (List.lookup p cache).isSome then 0 else 1) := by
  intro l
  induction l with
  | nil =>
    intro cache combined
    simp [installer_load_prompts_aux, countReads]
  | cons q rest ih =>
    intro cache combined
    cases hq : List.lookup q cache with
    | some c =>
      simp only [installer_load_prompts_aux, hq]
      exact ih cache _
    | none =>
      cases hfq : fs q with
      | none =>
        simp only [installer_load_prompts_aux, hq, hfq]
        simp [countReads]
      | some c =>
        simp only [installer_load_prompts_aux, hq, hfq]
        by_cases hqp : q = p
        · subst hqp
          have htail := ih ((q, c) :: cache) (combined ++ c ++ "\n\n")
          simp [List.lookup_cons] at htail
          simp only [countReads, List.countP_cons] at htail ⊢
          simp [hq]
          intro a ha
          have h0 := List.countP_eq_zero.mp htail a ha
          simpa using h0
        · have htail := ih ((q, c) :: cache) (combined ++ c ++ "\n\n")
          rw [List.lookup_cons] at htail
          rw [show (p == q) = false from by simpa using fun h => hqp h.symm] at htail
          simp only [countReads, List.countP_cons] at htail ⊢
          have hne : (Event.fsRead q == Event.fsRead p) = false := by
            simpa using hqp
          rw [hne]
          simpa [countReads] using htail

/-- C6 (amended): in the Installer variant the by-name cache ensures at
most one filesystem read per fragment name per run — for a composition
list naming the same fragment twice, exactly one read occurs — and the
result is the strip of the twice-repeated content, which contains the
content twice whenever the fragment is nonempty with no edge whitespace.
The gpt_processor_main variant has no cache and reads once per occurrence
(two reads for the same list). -/
theorem C6_cache_amended (fs : String → Option String) (n c : String)
    (hc : fs n = some c) :
    (installer_load_prompts fs [n, n]).2 = [Event.fsRead n] ∧
    (installer_load_prompts fs [n, n]).1 =
      Except.ok (pyStrip (joinSep "\n\n" [c, c])) ∧
    (∀ l, countReads n (installer_load_prompts fs l).2 ≤ 1) ∧
    (c ≠ "" → pyStrip c = c →
      ContainsTwice (pyStrip (joinSep "\n\n" [c, c])) c) ∧
    countReads n (gpt_main_load_prompts fs [n, n]).2 = 2 := by
  refine ⟨?_, ?_, ?_, ?_, ?_⟩
  · simp [installer_load_prompts, installer_load_prompts_aux, hc, List.lookup_cons]
  · have hok := installer_load_prompts_ok fs (fun _ => c) [n, n]
      (by intro x hx; simp at hx; subst hx; exact hc)
    simpa using hok
  · intro l
    have hb := installer_aux_countReads_le fs n l [] ""
    simpa [installer_load_prompts] using hb
  · intro hne hstrip
    have hjoin : joinSep "\n\n" [c, c] = c ++ "\n\n" ++ c := rfl
    have hdata : pyStripList c.data = c.data := by
      have := congrArg String.data hstrip
      exact this
    have hparts := pyStrip_self_parts c.data hdata
    have hdne : c.data ≠ [] := by
      intro h0
      exact hne (string_ext_data h0)
    have hfix : pyStrip (c ++ "\n\n" ++ c) = c ++ "\n\n" ++ c := by
      apply string_ext_data
      show pyStripList (c ++ "\n\n" ++ c).data = (c ++ "\n\n" ++ c).data
      have hshape : (c ++ "\n\n" ++ c).data = c.data ++ ['\n', '\n'] ++ c.data := by
        rw [String.data_append, String.data_append]
      rw [hshape]
      exact pyStripList_sandwich c.data ['\n', '\n'] hdne hparts.1 hparts.2
    rw [hjoin, hfix]
    exact ⟨"", "\n\n", "", by simp [String.append_empty, String.empty_append]⟩
  · simp [gpt_main_load_prompts, gpt_main_load_prompts_aux, hc, countReads]

/-- C6 counterexample: the gpt_processor_main variant's composition has no
cache, so a list naming fragment "p" twice performs two filesystem reads —
the claim says exactly one. -/
theorem C6_counterexample :
    countReads "p" (gpt_main_load_prompts
      (fun q => if q = "p" then some "X" else none) ["p", "p"]).2 = 2 ∧
    (2 : Nat) ≠ 1 := ⟨by decide, by decide⟩

/-- C6 witness: the amended theorem at fragment "p" with content "X". -/
theorem C6_cache_witness :
    (installer_load_prompts (fun q => if q = "p" then some "X" else none)
      ["p", "p"]).2 = [Event.fsRead "p"] ∧
    (installer_load_prompts (fun q => if q = "p" then some "X" else none)
      ["p", "p"]).1 = Except.ok (pyStrip (joinSep "\n\n" ["X", "X"])) ∧
    (∀ l, countReads "p" (installer_load_prompts
      (fun q => if q = "p" then some "X" else none) l).2 ≤ 1) ∧
    (("X" : String) ≠ "" → pyStrip "X" = "X" →
      ContainsTwice (pyStrip (joinSep "\n\n" ["X", "X"])) "X") ∧
    countReads "p" (gpt_main_load_prompts
      (fun q => if q = "p" then some "X" else none) ["p", "p"]).2 = 2 :=
  C6_cache_amended (fun q => if q = "p" then some "X" else none) "p" "X" (by decide)

/-! ## Event classification lemmas -/

theorem installer_read_events (w : World) (p : String) :
    ∀ e ∈ (installer_read_file w p).2,
      isFsWrite e = false ∧ isApiCall e = false ∧ isMaxRetriesLog e = false := by
  intro e he
  cases hf : w.files p with
  | none => simp [installer_read_file, hf] at he
  | some entry =>
    cases entry with
    | utf8File c =>
      simp [installer_read_file, hf] at he
      simp [he, isFsWrite, isApiCall, isMaxRetriesLog]
    | binaryFile c =>
      simp [installer_read_file, hf] at he
      simp [he, isFsWrite, isApiCall, isMaxRetriesLog]
    | unreadable m =>
      simp [installer_read_file, hf] at he

theorem gpt_main_read_events (w : World) (p : String) :
    ∀ e ∈ (gpt_main_read_file w p).2,
      isFsWrite e = false ∧ isApiCall e = false := by
  intro e he
  cases hf : w.files p with
  | none =>
    simp [gpt_main_read_file, hf] at he
    simp [he, isFsWrite, isApiCall]
  | some entry =>
    cases entry <;> simp [gpt_main_read_file, hf] at he <;>
      simp [he, isFsWrite, isApiCall]

theorem send_events_no_write (call : Nat → Except PyExc String) (B R : Nat) :
    ∀ (n a : Nat), R - a = n →
      ∀ e ∈ (sendPromptAux call B R a).2, isFsWrite e = false := by
  intro n
  induction n with
  | zero =>
    intro a ha e he
    cases hc : call a with
    | ok t =>
      rw [sendPromptAux_ok call B R a t hc] at he
      simp at he
      simp [he, isFsWrite]
    | error er =>
      rw [sendPromptAux_last call B R a er hc (by omega)] at he
      simp at he
      rcases he with h | h | h <;> simp [h, isFsWrite]
  | succ n ih =>
    intro a ha e he
    cases hc : call a with
    | ok t =>
      rw [sendPromptAux_ok call B R a t hc] at he
      simp at he
      simp [he, isFsWrite]
    | error er =>
      by_cases hlt : a < R
      · rw [sendPromptAux_retry call B R a er hc hlt] at he
        simp at he
        rcases he with h | h | h | h | h
        · simp [h, isFsWrite]
        · simp [h, isFsWrite]
        · simp [h, isFsWrite]
        · simp [h, isFsWrite]
        · exact ih (a + 1) (by omega) e h
      · rw [sendPromptAux_last call B R a er hc hlt] at he
        simp at he
        rcases he with h | h | h <;> simp [h, isFsWrite]

/-- C8 (amended): the Installer variant's `read_file` behaves exactly as
the claim states — UTF-8 first, Latin-1 fallback (a second read) if and
only if UTF-8 decoding fails, and `IOError` on any other failure, never an
encoding error.  The gpt_processor_main variant's `read_file` (also cited
by the claim) instead catches every exception and returns the empty
string: no Latin-1 fallback and no `IOError` ever reaches the caller. -/
theorem C8_read_document_amended (w : World) (path : String) :
    (∀ c, w.files path = some (FsEntry.utf8File c) →
      installer_read_file w path = (Except.ok c, [Event.fsRead path]) ∧
      gpt_main_read_file w path = (c, [Event.fsRead path])) ∧
    (∀ c, w.files path = some (FsEntry.binaryFile c) →
      installer_read_file w path =
        (Except.ok c, [Event.fsRead path, Event.fsRead path]) ∧
      (gpt_main_read_file w path).1 = "") ∧
    (∀ m, w.files path = some (FsEntry.unreadable m) →
      installer_read_file w path =
        (Except.error (PyExc.ioError ("Error reading file '" ++ path ++ "': " ++ m)), []) ∧
      (gpt_main_read_file w path).1 = "") ∧
    (w.files path = none →
      installer_read_file w path =
        (Except.error (PyExc.ioError
          ("Error reading file '" ++ path ++ "': No such file or directory")), []) ∧
      (gpt_main_read_file w path).1 = "") ∧
    (∀ e, (installer_read_file w path).1 = Except.error e →
      ∃ m, e = PyExc.ioError m) := by
  refine ⟨?_, ?_, ?_, ?_, ?_⟩
  · intro c hf
    constructor <;> simp [installer_read_file, gpt_main_read_file, hf]
  · intro c hf
    constructor <;> simp [installer_read_file, gpt_main_read_file, hf]
  · intro m hf
    constructor <;> simp [installer_read_file, gpt_main_read_file, hf]
  · intro hf
    constructor <;> simp [installer_read_file, gpt_main_read_file, hf]
  · intro e he
    cases hf : w.files path with
    | none =>
      simp [installer_read_file, hf] at he
      exact ⟨_, he.symm⟩
    | some entry =>
      cases entry <;> simp [installer_read_file, hf] at he
      exact ⟨_, he.symm⟩

/-- C8 witness: the amended theorem at a world holding one UTF-8 file. -/
theorem C8_read_document_witness :
    (∀ c, (⟨fun p => if p = "in/d" then some (FsEntry.utf8File "hello") else none,
        fun _ => WriteResult.ok⟩ : World).files "in/d" = some (FsEntry.utf8File c) →
      installer_read_file ⟨fun p => if p = "in/d" then some (FsEntry.utf8File "hello") else none,
        fun _ => WriteResult.ok⟩ "in/d" = (Except.ok c, [Event.fsRead "in/d"]) ∧
      gpt_main_read_file ⟨fun p => if p = "in/d" then some (FsEntry.utf8File "hello") else none,
        fun _ => WriteResult.ok⟩ "in/d" = (c, [Event.fsRead "in/d"])) ∧
    (∀ c, (⟨fun p => if p = "in/d" then some (FsEntry.utf8File "hello") else none,
        fun _ => WriteResult.ok⟩ : World).files "in/d" = some (FsEntry.binaryFile c) →
      installer_read_file ⟨fun p => if p = "in/d" then some (FsEntry.utf8File "hello") else none,
        fun _ => WriteResult.ok⟩ "in/d" = (Except.ok c, [Event.fsRead "in/d", Event.fsRead "in/d"]) ∧
      (gpt_main_read_file ⟨fun p => if p = "in/d" then some (FsEntry.utf8File "hello") else none,
        fun _ => WriteResult.ok⟩ "in/d").1 = "") ∧
    (∀ m, (⟨fun p => if p = "in/d" then some (FsEntry.utf8File "hello") else none,
        fun _ => WriteResult.ok⟩ : World).files "in/d" = some (FsEntry.unreadable m) →
      installer_read_file ⟨fun p => if p = "in/d" then some (FsEntry.utf8File "hello") else none,
        fun _ => WriteResult.ok⟩ "in/d" =
        (Except.error (PyExc.ioError ("Error reading file '" ++ "in/d" ++ "': " ++ m)), []) ∧
      (gpt_main_read_file ⟨fun p => if p = "in/d" then some (FsEntry.utf8File "hello") else none,
        fun _ => WriteResult.ok⟩ "in/d").1 = "") ∧
    ((⟨fun p => if p = "in/d" then some (FsEntry.utf8File "hello") else none,
        fun _ => WriteResult.ok⟩ : World).files "in/d" = none →
      installer_read_file ⟨fun p => if p = "in/d" then some (FsEntry.utf8File "hello") else none,
        fun _ => WriteResult.ok⟩ "in/d" =
        (Except.error (PyExc.ioError
          ("Error reading file '" ++ "in/d" ++ "': No such file or directory")), []) ∧
      (gpt_main_read_file ⟨fun p => if p = "in/d" then some (FsEntry.utf8File "hello") else none,
        fun _ => WriteResult.ok⟩ "in/d").1 = "") ∧
    (∀ e, (installer_read_file ⟨fun p => if p = "in/d" then some (FsEntry.utf8File "hello") else none,
        fun _ => WriteResult.ok⟩ "in/d").1 = Except.error e → ∃ m, e = PyExc.ioError m) :=
  C8_read_document_amended
    ⟨fun p => if p = "in/d" then some (FsEntry.utf8File "hello") else none, fun _ => WriteResult.ok⟩
    "in/d"

/-- C8 counterexample: a file whose bytes are not valid UTF-8 (Latin-1
decode "abc").  The claim says the read retries with Latin-1 — and indeed
the Installer variant returns "abc" — but the gpt_processor_main variant,
also cited by the claim, returns the empty string with no fallback read. -/
theorem C8_counterexample :
    (gpt_main_read_file
      ⟨fun p => if p = "in/b" then some (FsEntry.binaryFile "abc") else none,
       fun _ => WriteResult.ok⟩ "in/b").1 = "" ∧
    (installer_read_file
      ⟨fun p => if p = "in/b" then some (FsEntry.binaryFile "abc") else none,
       fun _ => WriteResult.ok⟩ "in/b").1 = Except.ok "abc" ∧
    ("" : String) ≠ "abc" := ⟨by decide, by decide, by decide⟩

/-- C10: in the gpt_processor_main variant, whenever the read yields the
empty string — which covers every read failure, since its `read_file`
returns "" instead of raising — `process_file` logs an error naming the
document and returns: no remote call is made, no write happens, and the
world is unchanged. -/
theorem C10_empty_prompt_short_circuit (w : World)
    (api : String → String → Nat → Except PyExc String) (B R : Nat)
    (iDir oDir f sp : String)
    (h : (gpt_main_read_file w (inPath iDir f)).1 = "") :
    (gpt_main_process_file w api B R iDir oDir f sp).2 = w ∧
    (gpt_main_process_file w api B R iDir oDir f sp).1.success = false ∧
    List.countP isApiCall (gpt_main_process_file w api B R iDir oDir f sp).1.events = 0 ∧
    List.countP isFsWrite (gpt_main_process_file w api B R iDir oDir f sp).1.events = 0 ∧
    ∃ m, Event.logError m ∈ (gpt_main_process_file w api B R iDir oDir f sp).1.events ∧
      MentionsStr m (inPath iDir f) := by
  cases hr : gpt_main_read_file w (inPath iDir f) with
  | mk up rEvs =>
    have hup : up = "" := by
      have := congrArg Prod.fst hr
      simp at this
      rw [← this]
      exact h
    subst hup
    have hproc : gpt_main_process_file w api B R iDir oDir f sp =
        ({ success := false,
           events := rEvs ++
             [Event.logError ("User prompt is empty for file '" ++ inPath iDir f ++ "'")] }, w) := by
      simp [gpt_main_process_file, hr]
    rw [hproc]
    have hnoapi : List.countP isApiCall rEvs = 0 := by
      rw [List.countP_eq_zero]
      intro e he
      have h2 := gpt_main_read_events w (inPath iDir f) e (by rw [hr]; exact he)
      simp [h2.2]
    have hnowrite : List.countP isFsWrite rEvs = 0 := by
      rw [List.countP_eq_zero]
      intro e he
      have h2 := gpt_main_read_events w (inPath iDir f) e (by rw [hr]; exact he)
      simp [h2.1]
    refine ⟨rfl, rfl, ?_, ?_, ?_⟩
    · simp [List.countP_append, List.countP_cons, hnoapi, isApiCall]
    · simp [List.countP_append, List.countP_cons, hnowrite, isFsWrite]
    · refine ⟨"User prompt is empty for file '" ++ inPath iDir f ++ "'", by simp, ?_⟩
      exact ⟨"User prompt is empty for file '", "'", by simp [String.append_assoc]⟩

/-- C10 witness: a document whose file is missing; the main variant's read
returns "" and the task short-circuits. -/
theorem C10_empty_prompt_witness :
    (gpt_main_process_file ⟨fun _ => none, fun _ => WriteResult.ok⟩
      (fun _ _ _ => Except.ok "resp") 2 3 "in" "out" "d" "s").2 =
      ⟨fun _ => none, fun _ => WriteResult.ok⟩ ∧
    (gpt_main_process_file ⟨fun _ => none, fun _ => WriteResult.ok⟩
      (fun _ _ _ => Except.ok "resp") 2 3 "in" "out" "d" "s").1.success = false ∧
    List.countP isApiCall (gpt_main_process_file ⟨fun _ => none, fun _ => WriteResult.ok⟩
      (fun _ _ _ => Except.ok "resp") 2 3 "in" "out" "d" "s").1.events = 0 ∧
    List.countP isFsWrite (gpt_main_process_file ⟨fun _ => none, fun _ => WriteResult.ok⟩
      (fun _ _ _ => Except.ok "resp") 2 3 "in" "out" "d" "s").1.events = 0 ∧
    ∃ m, Event.logError m ∈ (gpt_main_process_file ⟨fun _ => none, fun _ => WriteResult.ok⟩
      (fun _ _ _ => Except.ok "resp") 2 3 "in" "out" "d" "s").1.events ∧
      MentionsStr m (inPath "in" "d") :=
  C10_empty_prompt_short_circuit ⟨fun _ => none, fun _ => WriteResult.ok⟩
    (fun _ _ _ => Except.ok "resp") 2 3 "in" "out" "d" "s" (by decide)

/-- C5 (amended): in the Installer variant a write event occurs only when
the read succeeded and the remote call returned a successful, complete
response, and it happens at the derived output path with the response
text — or a truncated prefix of it when the write itself fails partway.
A task failing BEFORE the write (read failure, exhausted retries) leaves
the world, hence the output directory, unchanged.  A task whose WRITE
fails, however, need not leave the output untouched: `open(output_file,
'w')` truncates or creates the file before writing, so a failed write can
leave an empty or partial artifact. -/
theorem C5_write_only_after_success_amended (w : World)
    (api : String → String → Nat → Except PyExc String) (B R : Nat)
    (iDir oDir f sp : String) :
    (∀ e, (installer_read_file w (inPath iDir f)).1 = Except.error e →
      (installer_process_file w api B R iDir oDir f sp).2 = w) ∧
    (∀ up e, (installer_read_file w (inPath iDir f)).1 = Except.ok up →
      (send_prompt (api sp up) B R).1 = Except.error e →
      (installer_process_file w api B R iDir oDir f sp).2 = w) ∧
    (∀ p c, Event.fsWrite p c ∈ (installer_process_file w api B R iDir oDir f sp).1.events →
      ∃ up, (installer_read_file w (inPath iDir f)).1 = Except.ok up ∧
        ∃ resp, (send_prompt (api sp up) B R).1 = Except.ok resp ∧
          p = outPathInstaller oDir f ∧
          (c = resp ∨ ∃ k, c = pyTake resp k)) := by
  cases hr : installer_read_file w (inPath iDir f) with
  | mk rres rEvs =>
    have hrev : ∀ e ∈ rEvs, isFsWrite e = false := by
      intro e he
      exact (installer_read_events w (inPath iDir f) e (by rw [hr]; exact he)).1
    cases rres with
    | error e0 =>
      refine ⟨fun e _ => by simp [installer_process_file, hr], ?_, ?_⟩
      · intro up e2 hok _
        simp at hok
      · intro p c hmem
        have hproc : (installer_process_file w api B R iDir oDir f sp).1.events =
            rEvs ++ [Event.logError (installerProcessErrMsg (inPath iDir f) e0)] := by
          simp [installer_process_file, hr]
        rw [hproc] at hmem
        rcases List.mem_append.mp hmem with hin | hone
        · have := hrev _ hin
          simp [isFsWrite] at this
        · simp at hone
    | ok up =>
      cases hs : send_prompt (api sp up) B R with
      | mk sres sEvs =>
        have hsev : ∀ e ∈ sEvs, isFsWrite e = false := by
          intro e he
          refine send_events_no_write (api sp up) B R (R - 1) 1 rfl e ?_
          show e ∈ (sendPromptAux (api sp up) B R 1).2
          rw [show sendPromptAux (api sp up) B R 1 = (sres, sEvs) from hs]
          exact he
        cases sres with
        | error e0 =>
          refine ⟨?_, fun _ _ _ _ => by simp [installer_process_file, hr, hs], ?_⟩
          · intro e2 herr
            simp at herr
          · intro p c hmem
            have hproc : (installer_process_file w api B R iDir oDir f sp).1.events =
                rEvs ++ sEvs ++
                  [Event.logError (installerProcessErrMsg (inPath iDir f) e0)] := by
              simp [installer_process_file, hr, hs]
            rw [hproc] at hmem
            rcases List.mem_append.mp hmem with h3 | hone
            · rcases List.mem_append.mp h3 with hin | hin
              · have := hrev _ hin
                simp [isFsWrite] at this
              · have := hsev _ hin
                simp [isFsWrite] at this
            · simp at hone
        | ok resp =>
          refine ⟨?_, ?_, ?_⟩
          · intro e2 herr
            simp at herr
          · intro up2 e2 hok hsend
            simp at hok
            subst hok
            rw [hs] at hsend
            simp at hsend
          · intro p c hmem
            cases hwk : w.writes (outPathInstaller oDir f) with
            | ok =>
              have hproc : (installer_process_file w api B R iDir oDir f sp).1.events =
                  rEvs ++ sEvs ++ [Event.fsWrite (outPathInstaller oDir f) resp] ++
                    [Event.logInfo ("Processed '" ++ inPath iDir f ++
                      "' and saved to '" ++ outPathInstaller oDir f ++ "'.")] := by
                simp [installer_process_file, hr, hs, installer_write_output, hwk]
              rw [hproc] at hmem
              rcases List.mem_append.mp hmem with h3 | hone
              · rcases List.mem_append.mp h3 with h4 | hwv
                · rcases List.mem_append.mp h4 with hin | hin
                  · have := hrev _ hin
                    simp [isFsWrite] at this
                  · have := hsev _ hin
                    simp [isFsWrite] at this
                · simp at hwv
                  exact ⟨up, by simp [hr], resp, by simp [hs], hwv.1, Or.inl hwv.2⟩
              · simp at hone
            | openFail m =>
              have hproc : (installer_process_file w api B R iDir oDir f sp).1.events =
                  rEvs ++ sEvs ++ ([] : List Event) ++
                    [Event.logError (installerProcessErrMsg (inPath iDir f)
                      (PyExc.ioError ("Error writing to file '" ++
                        outPathInstaller oDir f ++ "': " ++ m)))] := by
                simp [installer_process_file, hr, hs, installer_write_output, hwk]
              rw [hproc] at hmem
              rcases List.mem_append.mp hmem with h3 | hone
              · rcases List.mem_append.mp h3 with h4 | hemp
                · rcases List.mem_append.mp h4 with hin | hin
                  · have := hrev _ hin
                    simp [isFsWrite] at this
                  · have := hsev _ hin
                    simp [isFsWrite] at this
                · simp at hemp
              · simp at hone
            | writeFail k m =>
              have hproc : (installer_process_file w api B R iDir oDir f sp).1.events =
                  rEvs ++ sEvs ++ [Event.fsWrite (outPathInstaller oDir f) (pyTake resp k)] ++
                    [Event.logError (installerProcessErrMsg (inPath iDir f)
                      (PyExc.ioError ("Error writing to file '" ++
                        outPathInstaller oDir f ++ "': " ++ m)))] := by
                simp [installer_process_file, hr, hs, installer_write_output, hwk]
              rw [hproc] at hmem
              rcases List.mem_append.mp hmem with h3 | hone
              · rcases List.mem_append.mp h3 with h4 | hwv
                · rcases List.mem_append.mp h4 with hin | hin
                  · have := hrev _ hin
                    simp [isFsWrite] at this
                  · have := hsev _ hin
                    simp [isFsWrite] at this
                · simp at hwv
                  exact ⟨up, by simp [hr], resp, by simp [hs], hwv.1, Or.inr ⟨k, hwv.2⟩⟩
              · simp at hone

/-- C5 counterexample: a task whose write fails after two characters.
The read and the remote call succeed with response "resp"; the write
raises after `open(...,'w')` has truncated/created the file and two
characters have landed.  The task fails (`success = false`), yet the
output path — empty before the run — now holds the partial artifact "re":
a failed task CAN leave a (partial) output artifact. -/
theorem C5_counterexample :
    (installer_process_file
      ⟨fun p => if p = "in/d" then some (FsEntry.utf8File "hello") else none,
       fun _ => WriteResult.writeFail 2 "disk full"⟩
      (fun _ _ _ => Except.ok "resp") 2 3 "in" "out" "d" "s").1.success = false ∧
    (installer_process_file
      ⟨fun p => if p = "in/d" then some (FsEntry.utf8File "hello") else none,
       fun _ => WriteResult.writeFail 2 "disk full"⟩
      (fun _ _ _ => Except.ok "resp") 2 3 "in" "out" "d" "s").2.files
      (outPathInstaller "out" "d") = some (FsEntry.utf8File (pyTake "resp" 2)) ∧
    pyTake "resp" 2 = "re" ∧
    (⟨fun p => if p = "in/d" then some (FsEntry.utf8File "hello") else none,
      fun _ => WriteResult.writeFail 2 "disk full"⟩ : World).files
      (outPathInstaller "out" "d") = none := by
  refine ⟨?_, ?_, by decide, by decide⟩
  · simp [installer_process_file, installer_read_file, send_prompt, sendPromptAux,
      installer_write_output, inPath, outPathInstaller]
  · simp [installer_process_file, installer_read_file, send_prompt, sendPromptAux,
      installer_write_output, inPath, outPathInstaller]
    decide

/-- C5 witness: with a fully successful write, the amended theorem's
implications at a concrete run. -/
theorem C5_write_only_after_success_witness :
    (∀ e, (installer_read_file
        ⟨fun p => if p = "in/d" then some (FsEntry.utf8File "hello") else none,
         fun _ => WriteResult.ok⟩ (inPath "in" "d")).1 = Except.error e →
      (installer_process_file
        ⟨fun p => if p = "in/d" then some (FsEntry.utf8File "hello") else none,
         fun _ => WriteResult.ok⟩
        (fun _ _ _ => Except.ok "resp") 2 3 "in" "out" "d" "s").2 =
        ⟨fun p => if p = "in/d" then some (FsEntry.utf8File "hello") else none,
         fun _ => WriteResult.ok⟩) ∧
    (∀ up e, (installer_read_file
        ⟨fun p => if p = "in/d" then some (FsEntry.utf8File "hello") else none,
         fun _ => WriteResult.ok⟩ (inPath "in" "d")).1 = Except.ok up →
      (send_prompt ((fun _ _ _ => Except.ok "resp") "s" up : Nat → Except PyExc String)
        2 3).1 = Except.error e →
      (installer_process_file
        ⟨fun p => if p = "in/d" then some (FsEntry.utf8File "hello") else none,
         fun _ => WriteResult.ok⟩
        (fun _ _ _ => Except.ok "resp") 2 3 "in" "out" "d" "s").2 =
        ⟨fun p => if p = "in/d" then some (FsEntry.utf8File "hello") else none,
         fun _ => WriteResult.ok⟩) ∧
    (∀ p c, Event.fsWrite p c ∈ (installer_process_file
        ⟨fun p => if p = "in/d" then some (FsEntry.utf8File "hello") else none,
         fun _ => WriteResult.ok⟩
        (fun _ _ _ => Except.ok "resp") 2 3 "in" "out" "d" "s").1.events →
      ∃ up, (installer_read_file
          ⟨fun p => if p = "in/d" then some (FsEntry.utf8File "hello") else none,
           fun _ => WriteResult.ok⟩ (inPath "in" "d")).1 = Except.ok up ∧
        ∃ resp, (send_prompt ((fun _ _ _ => Except.ok "resp") "s" up : Nat → Except PyExc String)
            2 3).1 = Except.ok resp ∧
          p = outPathInstaller "out" "d" ∧
          (c = resp ∨ ∃ k, c = pyTake resp k)) :=
  C5_write_only_after_success_amended
    ⟨fun p => if p = "in/d" then some (FsEntry.utf8File "hello") else none,
     fun _ => WriteResult.ok⟩
    (fun _ _ _ => Except.ok "resp") 2 3 "in" "out" "d" "s"

/-! ## Run-level lemmas (claim C7) -/

theorem installer_aux_ok_found (fs : String → Option String) :
    ∀ (l : List String) (cache : List (String × String)) (combined : String),
      (∀ q c, List.lookup q cache = some c → fs q = some c) →
      (∀ s, (installer_load_prompts_aux fs cache combined l).1 = Except.ok s →
        ∀ n ∈ l, ∃ c, fs n = some c) := by
  intro l
  induction l with
  | nil => intro cache combined _ s _ n hn; simp at hn
  | cons p rest ih =>
    intro cache combined hcache s hok n hn
    cases hq : List.lookup p cache with
    | some c =>
      simp only [installer_load_prompts_aux, hq] at hok
      rcases List.mem_cons.mp hn with rfl | hn2
      · exact ⟨c, hcache n c hq⟩
      · exact ih cache _ hcache s hok n hn2
    | none =>
      cases hfp : fs p with
      | none =>
        simp [installer_load_prompts_aux, hq, hfp] at hok
      | some c =>
        simp only [installer_load_prompts_aux, hq, hfp] at hok
        rcases List.mem_cons.mp hn with rfl | hn2
        · exact ⟨c, hfp⟩
        · refine ih ((p, c) :: cache) _ ?_ s hok n hn2
          intro q c2 hqc
          rw [List.lookup_cons] at hqc
          split at hqc
          · rename_i hqp2
            have hqp3 : q = p := by simpa using hqp2
            subst hqp3
            simp at hqc
            rw [← hqc]
            exact hfp
          · exact hcache q c2 hqc

/-- A missing fragment makes the Installer composition raise. -/
theorem installer_load_prompts_missing (fs : String → Option String)
    (names : List String) (n : String) (hn : n ∈ names) (hmiss : fs n = none) :
    ∃ e, (installer_load_prompts fs names).1 = Except.error e := by
  cases hres : (installer_load_prompts fs names).1 with
  | ok s =>
    obtain ⟨c, hc⟩ := installer_aux_ok_found fs names [] "" (by simp) s hres n hn
    rw [hmiss] at hc
    exact absurd hc (by simp)
  | error e => exact ⟨e, rfl⟩

theorem run_batch_length (step : World → String → TaskOutcome × World) :
    ∀ (docs : List String) (w : World),
      (run_batch step w docs).1.length = docs.length := by
  intro docs
  induction docs with
  | nil => intro w; rfl
  | cons h t ih => intro w; simp [run_batch, ih]

/-- C7 (amended): in the Installer variant a missing fragment raises
`FileNotFoundError`, `main` catches it and exits 1 before any task is
dispatched, leaving the world — hence the output directory — unchanged.
In the gpt_processor_main variant (also cited by the claim) the missing
fragment is merely logged inside `load_prompts`, composition returns the
join of the remaining fragments, and the run still dispatches one task per
document. -/
theorem C7_missing_fragment_amended (w : World)
    (promptFs : String → Option String) (promptFiles : List String)
    (api : String → String → Nat → Except PyExc String) (B R : Nat)
    (iDir oDir : String) (docs : List String) (n : String)
    (hn : n ∈ promptFiles) (hmiss : promptFs n = none) :
    (installer_run w promptFs promptFiles api B R iDir oDir docs).1 = 1 ∧
    (installer_run w promptFs promptFiles api B R iDir oDir docs).2.1 = [] ∧
    (installer_run w promptFs promptFiles api B R iDir oDir docs).2.2.1 = w ∧
    (gpt_main_run w promptFs promptFiles api B R iDir oDir docs).1.length =
      docs.length := by
  obtain ⟨e, he⟩ := installer_load_prompts_missing promptFs promptFiles n hn hmiss
  cases hlp : installer_load_prompts promptFs promptFiles with
  | mk res evs =>
    have hres : res = Except.error e := by
      have h2 := he
      rw [hlp] at h2
      exact h2
    subst hres
    refine ⟨?_, ?_, ?_, ?_⟩
    · simp [installer_run, hlp]
    · simp [installer_run, hlp]
    · simp [installer_run, hlp]
    · cases hgp : gpt_main_load_prompts promptFs promptFiles with
      | mk sp evs2 =>
        simp [gpt_main_run, hgp, run_batch_length]

/-- C7 witness: the amended theorem at a concrete world with prompt "p"
missing and one document. -/
theorem C7_missing_fragment_witness :
    (installer_run ⟨fun q => if q = "in/d" then some (FsEntry.utf8File "hello") else none,
        fun _ => WriteResult.ok⟩ (fun _ => none) ["p"]
      (fun _ _ _ => Except.ok "resp") 2 3 "in" "out" ["d"]).1 = 1 ∧
    (installer_run ⟨fun q => if q = "in/d" then some (FsEntry.utf8File "hello") else none,
        fun _ => WriteResult.ok⟩ (fun _ => none) ["p"]
      (fun _ _ _ => Except.ok "resp") 2 3 "in" "out" ["d"]).2.1 = [] ∧
    (installer_run ⟨fun q => if q = "in/d" then some (FsEntry.utf8File "hello") else none,
        fun _ => WriteResult.ok⟩ (fun _ => none) ["p"]
      (fun _ _ _ => Except.ok "resp") 2 3 "in" "out" ["d"]).2.2.1 =
      ⟨fun q => if q = "in/d" then some (FsEntry.utf8File "hello") else none, fun _ => WriteResult.ok⟩ ∧
    (gpt_main_run ⟨fun q => if q = "in/d" then some (FsEntry.utf8File "hello") else none,
        fun _ => WriteResult.ok⟩ (fun _ => none) ["p"]
      (fun _ _ _ => Except.ok "resp") 2 3 "in" "out" ["d"]).1.length = (["d"] : List String).length :=
  C7_missing_fragment_amended
    ⟨fun q => if q = "in/d" then some (FsEntry.utf8File "hello") else none, fun _ => WriteResult.ok⟩
    (fun _ => none) ["p"] (fun _ _ _ => Except.ok "resp") 2 3 "in" "out" ["d"] "p"
    (by decide) rfl

/-- C7 counterexample: with fragment "p" missing, one readable document
"d" and a service that answers "resp", the gpt_processor_main run — whose
`load_prompts` is cited by the claim — does NOT abort: it dispatches the
document's task and writes an output file, where the claim demands zero
output files regardless of the input directory. -/
theorem C7_counterexample :
    (gpt_main_run
      ⟨fun q => if q = "in/d" then some (FsEntry.utf8File "hello") else none, fun _ => WriteResult.ok⟩
      (fun _ => none) ["p"] (fun _ _ _ => Except.ok "resp") 2 3 "in" "out" ["d"]).2.1.files
      "out/response_d" = some (FsEntry.utf8File (pyStrip "resp")) ∧
    pyStrip "resp" = "resp" ∧
    (gpt_main_run
      ⟨fun q => if q = "in/d" then some (FsEntry.utf8File "hello") else none, fun _ => WriteResult.ok⟩
      (fun _ => none) ["p"] (fun _ _ _ => Except.ok "resp") 2 3 "in" "out" ["d"]).1.length = 1 := by
  refine ⟨?_, by decide, ?_⟩
  · simp [gpt_main_run, gpt_main_load_prompts, gpt_main_load_prompts_aux, run_batch,
      gpt_main_step, gpt_main_process_file, gpt_main_read_file, gpt_main_write_file,
      send_prompt, sendPromptAux, inPath, outPathMain, joinSep]
  · simp [gpt_main_run, gpt_main_load_prompts, gpt_main_load_prompts_aux, run_batch,
      gpt_main_step, gpt_main_process_file, gpt_main_read_file, gpt_main_write_file,
      send_prompt, sendPromptAux, inPath, outPathMain, joinSep]

/-! ## Worker pool (claim C4) -/

/-- C4 (amended): both variants compute the pool size as `min(5, n)` with
the ceiling 5 hardcoded — which coincides with the spec's formula at its
default ceiling — and in every state reachable by the pool scheduler the
number of concurrently active tasks never exceeds `min(5, n)`. -/
theorem C4_pool_bound_amended (n : Nat) (s : PoolState)
    (h : PoolReachable (main_max_workers n) n s) :
    s.active ≤ spec_pool_size 5 n ∧ main_max_workers n = spec_pool_size 5 n := by
  refine ⟨?_, rfl⟩
  induction h with
  | init => simp [spec_pool_size]
  | step s t hreach hstep ih =>
    cases hstep with
    | start hp ha =>
      simp only [main_max_workers] at ha
      simp only [spec_pool_size]
      omega
    | finish ha =>
      simp only [spec_pool_size] at ih ⊢
      omega

/-- C4 witness: with five documents the initial pool state is reachable
and satisfies the bound. -/
theorem C4_pool_bound_witness :
    (⟨5, 0, 0⟩ : PoolState).active ≤ spec_pool_size 5 5 ∧
    main_max_workers 5 = spec_pool_size 5 5 :=
  C4_pool_bound_amended 5 ⟨5, 0, 0⟩ PoolReachable.init

/-- C4 counterexample: the ceiling is not configurable — the code hardcodes
5 — so the claim's bound "min(configured_ceiling, document_count) for every
ceiling value" fails: with 5 documents and claimed ceiling 1, the pool the
code builds (capacity `main_max_workers 5 = 5`) reaches a state with 2
active tasks, exceeding `spec_pool_size 1 5 = 1`. -/
theorem C4_counterexample :
    PoolReachable (main_max_workers 5) 5 ⟨3, 2, 0⟩ ∧
    ¬ ((⟨3, 2, 0⟩ : PoolState).active ≤ spec_pool_size 1 5) ∧
    main_max_workers 5 ≠ spec_pool_size 1 5 := by
  refine ⟨?_, by decide, by decide⟩
  have h1 : PoolStep (main_max_workers 5) ⟨5, 0, 0⟩ ⟨4, 1, 0⟩ :=
    PoolStep.start ⟨5, 0, 0⟩ (by decide) (by decide)
  have h2 : PoolStep (main_max_workers 5) ⟨4, 1, 0⟩ ⟨3, 2, 0⟩ :=
    PoolStep.start ⟨4, 1, 0⟩ (by decide) (by decide)
  exact PoolReachable.step _ _ (PoolReachable.step _ _ PoolReachable.init h1) h2

/-! ## Task locality and congruence (claim C1) -/

theorem installer_read_file_congr (w1 w2 : World) (p : String)
    (h : w1.files p = w2.files p) :
    installer_read_file w1 p = installer_read_file w2 p := by
  unfold installer_read_file
  rw [h]

theorem gpt_main_read_file_congr (w1 w2 : World) (p : String)
    (h : w1.files p = w2.files p) :
    gpt_main_read_file w1 p = gpt_main_read_file w2 p := by
  unfold gpt_main_read_file
  rw [h]

/-- A task writes nothing outside its own output path (partial writes
included: the truncate-then-write also touches only the output path). -/
theorem installer_process_file_files (w : World)
    (api : String → String → Nat → Except PyExc String) (B R : Nat)
    (iDir oDir f sp p : String) (hp : p ≠ outPathInstaller oDir f) :
    ((installer_process_file w api B R iDir oDir f sp).2).files p = w.files p := by
  cases hr : installer_read_file w (inPath iDir f) with
  | mk rres rEvs =>
    cases rres with
    | error e => simp [installer_process_file, hr]
    | ok up =>
      cases hs : send_prompt (api sp up) B R with
      | mk sres sEvs =>
        cases sres with
        | error e => simp [installer_process_file, hr, hs]
        | ok resp =>
          cases hwk : w.writes (outPathInstaller oDir f) with
          | ok => simp [installer_process_file, hr, hs, installer_write_output, hwk, hp]
          | openFail m => simp [installer_process_file, hr, hs, installer_write_output, hwk]
          | writeFail k m =>
            simp [installer_process_file, hr, hs, installer_write_output, hwk, hp]

theorem installer_process_file_writes (w : World)
    (api : String → String → Nat → Except PyExc String) (B R : Nat)
    (iDir oDir f sp : String) :
    ((installer_process_file w api B R iDir oDir f sp).2).writes = w.writes := by
  cases hr : installer_read_file w (inPath iDir f) with
  | mk rres rEvs =>
    cases rres with
    | error e => simp [installer_process_file, hr]
    | ok up =>
      cases hs : send_prompt (api sp up) B R with
      | mk sres sEvs =>
        cases sres with
        | error e => simp [installer_process_file, hr, hs]
        | ok resp =>
          cases hwk : w.writes (outPathInstaller oDir f) with
          | ok => simp [installer_process_file, hr, hs, installer_write_output, hwk]
          | openFail m => simp [installer_process_file, hr, hs, installer_write_output, hwk]
          | writeFail k m => simp [installer_process_file, hr, hs, installer_write_output, hwk]

/-- A task's outcome depends only on its own input file and the write
behavior of its own output path. -/
theorem installer_process_file_congr (w1 w2 : World)
    (api : String → String → Nat → Except PyExc String) (B R : Nat)
    (iDir oDir f sp : String)
    (hf : w1.files (inPath iDir f) = w2.files (inPath iDir f))
    (hw : w1.writes = w2.writes) :
    (installer_process_file w1 api B R iDir oDir f sp).1 =
    (installer_process_file w2 api B R iDir oDir f sp).1 := by
  have hread := installer_read_file_congr w1 w2 (inPath iDir f) hf
  cases hr : installer_read_file w2 (inPath iDir f) with
  | mk rres rEvs =>
    have hr1 : installer_read_file w1 (inPath iDir f) = (rres, rEvs) := by
      rw [hread, hr]
    cases rres with
    | error e => simp [installer_process_file, hr, hr1]
    | ok up =>
      cases hs : send_prompt (api sp up) B R with
      | mk sres sEvs =>
        cases sres with
        | error e => simp [installer_process_file, hr, hr1, hs]
        | ok resp =>
          have hwk1 : w1.writes (outPathInstaller oDir f) =
              w2.writes (outPathInstaller oDir f) := by rw [hw]
          cases hwk : w2.writes (outPathInstaller oDir f) with
          | ok =>
            rw [hwk] at hwk1
            simp [installer_process_file, hr, hr1, hs, installer_write_output, hwk, hwk1]
          | openFail m =>
            rw [hwk] at hwk1
            simp [installer_process_file, hr, hr1, hs, installer_write_output, hwk, hwk1]
          | writeFail k m =>
            rw [hwk] at hwk1
            simp [installer_process_file, hr, hr1, hs, installer_write_output, hwk, hwk1]

theorem gpt_main_process_file_files (w : World)
    (api : String → String → Nat → Except PyExc String) (B R : Nat)
    (iDir oDir f sp p : String) (hp : p ≠ outPathMain oDir f) :
    ((gpt_main_process_file w api B R iDir oDir f sp).2).files p = w.files p := by
  cases hr : gpt_main_read_file w (inPath iDir f) with
  | mk up rEvs =>
    by_cases hup : up = ""
    · subst hup
      simp [gpt_main_process_file, hr]
    · cases hs : send_prompt (api sp up) B R with
      | mk sres sEvs =>
        cases sres with
        | error e => simp [gpt_main_process_file, hr, hs, hup]
        | ok resp =>
          cases hwk : w.writes (outPathMain oDir f) with
          | ok => simp [gpt_main_process_file, hr, hs, hup, gpt_main_write_file, hwk, hp]
          | openFail m => simp [gpt_main_process_file, hr, hs, hup, gpt_main_write_file, hwk]
          | writeFail k m =>
            simp [gpt_main_process_file, hr, hs, hup, gpt_main_write_file, hwk, hp]

theorem gpt_main_process_file_writes (w : World)
    (api : String → String → Nat → Except PyExc String) (B R : Nat)
    (iDir oDir f sp : String) :
    ((gpt_main_process_file w api B R iDir oDir f sp).2).writes = w.writes := by
  cases hr : gpt_main_read_file w (inPath iDir f) with
  | mk up rEvs =>
    by_cases hup : up = ""
    · subst hup
      simp [gpt_main_process_file, hr]
    · cases hs : send_prompt (api sp up) B R with
      | mk sres sEvs =>
        cases sres with
        | error e => simp [gpt_main_process_file, hr, hs, hup]
        | ok resp =>
          cases hwk : w.writes (outPathMain oDir f) with
          | ok => simp [gpt_main_process_file, hr, hs, hup, gpt_main_write_file, hwk]
          | openFail m => simp [gpt_main_process_file, hr, hs, hup, gpt_main_write_file, hwk]
          | writeFail k m => simp [gpt_main_process_file, hr, hs, hup, gpt_main_write_file, hwk]

theorem gpt_main_process_file_congr (w1 w2 : World)
    (api : String → String → Nat → Except PyExc String) (B R : Nat)
    (iDir oDir f sp : String)
    (hf : w1.files (inPath iDir f) = w2.files (inPath iDir f))
    (hw : w1.writes = w2.writes) :
    (gpt_main_process_file w1 api B R iDir oDir f sp).1 =
    (gpt_main_process_file w2 api B R iDir oDir f sp).1 := by
  have hread := gpt_main_read_file_congr w1 w2 (inPath iDir f) hf
  cases hr : gpt_main_read_file w2 (inPath iDir f) with
  | mk up rEvs =>
    have hr1 : gpt_main_read_file w1 (inPath iDir f) = (up, rEvs) := by
      rw [hread, hr]
    by_cases hup : up = ""
    · subst hup
      simp [gpt_main_process_file, hr, hr1]
    · cases hs : send_prompt (api sp up) B R with
      | mk sres sEvs =>
        cases sres with
        | error e => simp [gpt_main_process_file, hr, hr1, hs, hup]
        | ok resp =>
          have hwk1 : w1.writes (outPathMain oDir f) =
              w2.writes (outPathMain oDir f) := by rw [hw]
          cases hwk : w2.writes (outPathMain oDir f) with
          | ok =>
            rw [hwk] at hwk1
            simp [gpt_main_process_file, hr, hr1, hs, hup, gpt_main_write_file, hwk, hwk1]
          | openFail m =>
            rw [hwk] at hwk1
            simp [gpt_main_process_file, hr, hr1, hs, hup, gpt_main_write_file, hwk, hwk1]
          | writeFail k m =>
            rw [hwk] at hwk1
            simp [gpt_main_process_file, hr, hr1, hs, hup, gpt_main_write_file, hwk, hwk1]

/-- Generic batch independence: when tasks write only to their own output
paths, preserve write permissions, and depend only on their own input file
and output-path writability, every document's recorded outcome in the
sequential batch equals the outcome of processing it alone against the
initial world — regardless of what happens to any other document. -/
theorem run_batch_outcomes (step : World → String → TaskOutcome × World)
    (inp outp : String → String)
    (H1 : ∀ w f p, p ≠ outp f → ((step w f).2).files p = w.files p)
    (H2 : ∀ w f, ((step w f).2).writes = w.writes)
    (H3 : ∀ w1 w2 f, w1.files (inp f) = w2.files (inp f) → w1.writes = w2.writes →
      (step w1 f).1 = (step w2 f).1)
    (w0 : World) :
    ∀ (docs : List String) (w : World),
      (∀ a ∈ docs, w.files (inp a) = w0.files (inp a)) →
      w.writes = w0.writes →
      (∀ a ∈ docs, ∀ b ∈ docs, outp b ≠ inp a) →
      ∀ fo ∈ (run_batch step w docs).1, fo.2 = (step w0 fo.1).1 := by
  intro docs
  induction docs with
  | nil =>
    intro w _ _ _ fo hfo
    simp [run_batch] at hfo
  | cons h t ih =>
    intro w hfiles hwok hdisj fo hfo
    simp only [run_batch] at hfo
    rcases List.mem_cons.mp hfo with heq | htail
    · rw [heq]
      exact H3 w w0 h (hfiles h (List.mem_cons_self h t)) hwok
    · refine ih ((step w h).2) ?_ ?_ ?_ fo htail
      · intro a ha
        rw [H1 w h (inp a)
          (hdisj a (List.mem_cons_of_mem h ha) h (List.mem_cons_self h t)).symm]
        exact hfiles a (List.mem_cons_of_mem h ha)
      · rw [H2]
        exact hwok
      · intro a ha b hb
        exact hdisj a (List.mem_cons_of_mem h ha) b (List.mem_cons_of_mem h hb)

theorem mentions_installerProcessErr (iDir f : String) (e : PyExc) :
    MentionsStr (installerProcessErrMsg (inPath iDir f) e) f :=
  ⟨"Error processing '" ++ (iDir ++ "/"), "': " ++ pyExcMsg e, by
    simp [installerProcessErrMsg, inPath, String.append_assoc]⟩

theorem mentions_emptyPromptMsg (iDir f : String) :
    MentionsStr ("User prompt is empty for file '" ++ inPath iDir f ++ "'") f :=
  ⟨"User prompt is empty for file '" ++ (iDir ++ "/"), "'", by
    simp [inPath, String.append_assoc]⟩

theorem mentions_gptProcessErr (iDir f : String) (e : PyExc) :
    MentionsStr ("Error processing file '" ++ inPath iDir f ++ "': " ++ pyExcMsg e) f :=
  ⟨"Error processing file '" ++ (iDir ++ "/"), "': " ++ pyExcMsg e, by
    simp [inPath, String.append_assoc]⟩

theorem mentions_gptWriteErr (oDir f m : String) :
    MentionsStr ("Error writing to file '" ++ outPathMain oDir f ++ "': " ++ m) f :=
  ⟨"Error writing to file '" ++ (oDir ++ "/response_"), "': " ++ m, by
    simp [outPathMain, String.append_assoc]⟩

/-- C1: every per-document failure — in either variant — is absorbed
inside the task and logged with a message naming the document, and in a
batch run each document's outcome is exactly what it would be if it were
processed alone against the initial world, so one document's failure
cannot change any sibling's outcome.  (The disjointness hypotheses say no
document's output path is another's input path — the spec's standing
assumption that output naming is collision-free.) -/
theorem C1_failure_isolation (w : World)
    (api : String → String → Nat → Except PyExc String) (B R : Nat)
    (iDir oDir f sp : String) (docs : List String)
    (hdisjInst : ∀ a ∈ docs, ∀ b ∈ docs, outPathInstaller oDir b ≠ inPath iDir a)
    (hdisjMain : ∀ a ∈ docs, ∀ b ∈ docs, outPathMain oDir b ≠ inPath iDir a) :
    ((installer_process_file w api B R iDir oDir f sp).1.success = false →
      ∃ m, Event.logError m ∈ (installer_process_file w api B R iDir oDir f sp).1.events ∧
        MentionsStr m f) ∧
    ((gpt_main_process_file w api B R iDir oDir f sp).1.success = false →
      ∃ m, Event.logError m ∈ (gpt_main_process_file w api B R iDir oDir f sp).1.events ∧
        MentionsStr m f) ∧
    (∀ fo ∈ (run_batch (installer_step api B R iDir oDir sp) w docs).1,
      fo.2 = (installer_process_file w api B R iDir oDir fo.1 sp).1) ∧
    (∀ fo ∈ (run_batch (gpt_main_step api B R iDir oDir sp) w docs).1,
      fo.2 = (gpt_main_process_file w api B R iDir oDir fo.1 sp).1) := by
  refine ⟨?_, ?_, ?_, ?_⟩
  · intro hfail
    cases hr : installer_read_file w (inPath iDir f) with
    | mk rres rEvs =>
      cases rres with
      | error e =>
        refine ⟨installerProcessErrMsg (inPath iDir f) e, ?_,
          mentions_installerProcessErr iDir f e⟩
        simp [installer_process_file, hr]
      | ok up =>
        cases hs : send_prompt (api sp up) B R with
        | mk sres sEvs =>
          cases sres with
          | error e =>
            refine ⟨installerProcessErrMsg (inPath iDir f) e, ?_,
              mentions_installerProcessErr iDir f e⟩
            simp [installer_process_file, hr, hs]
          | ok resp =>
            cases hwk : w.writes (outPathInstaller oDir f) with
            | ok =>
              exfalso
              have hsucc : (installer_process_file w api B R iDir oDir f sp).1.success = true := by
                simp [installer_process_file, hr, hs, installer_write_output, hwk]
              rw [hsucc] at hfail
              exact Bool.noConfusion hfail
            | openFail m =>
              refine ⟨installerProcessErrMsg (inPath iDir f)
                (PyExc.ioError ("Error writing to file '" ++ outPathInstaller oDir f ++
                  "': " ++ m)), ?_, mentions_installerProcessErr iDir f _⟩
              simp [installer_process_file, hr, hs, installer_write_output, hwk]
            | writeFail k m =>
              refine ⟨installerProcessErrMsg (inPath iDir f)
                (PyExc.ioError ("Error writing to file '" ++ outPathInstaller oDir f ++
                  "': " ++ m)), ?_, mentions_installerProcessErr iDir f _⟩
              simp [installer_process_file, hr, hs, installer_write_output, hwk]
  · intro hfail
    cases hr : gpt_main_read_file w (inPath iDir f) with
    | mk up rEvs =>
      by_cases hup : up = ""
      · subst hup
        refine ⟨"User prompt is empty for file '" ++ inPath iDir f ++ "'", ?_,
          mentions_emptyPromptMsg iDir f⟩
        simp [gpt_main_process_file, hr]
      · cases hs : send_prompt (api sp up) B R with
        | mk sres sEvs =>
          cases sres with
          | error e =>
            refine ⟨"Error processing file '" ++ inPath iDir f ++ "': " ++ pyExcMsg e, ?_,
              mentions_gptProcessErr iDir f e⟩
            simp [gpt_main_process_file, hr, hs, hup]
          | ok resp =>
            cases hwk : w.writes (outPathMain oDir f) with
            | ok =>
              exfalso
              have hsucc : (gpt_main_process_file w api B R iDir oDir f sp).1.success = true := by
                simp [gpt_main_process_file, hr, hs, hup, gpt_main_write_file, hwk]
              rw [hsucc] at hfail
              exact Bool.noConfusion hfail
            | openFail m =>
              refine ⟨"Error writing to file '" ++ outPathMain oDir f ++ "': " ++ m, ?_,
                mentions_gptWriteErr oDir f m⟩
              simp [gpt_main_process_file, hr, hs, hup, gpt_main_write_file, hwk]
            | writeFail k m =>
              refine ⟨"Error writing to file '" ++ outPathMain oDir f ++ "': " ++ m, ?_,
                mentions_gptWriteErr oDir f m⟩
              simp [gpt_main_process_file, hr, hs, hup, gpt_main_write_file, hwk]
  · intro fo hfo
    exact run_batch_outcomes (installer_step api B R iDir oDir sp)
      (fun a => inPath iDir a) (fun b => outPathInstaller oDir b)
      (fun w2 f2 p hp => installer_process_file_files w2 api B R iDir oDir f2 sp p hp)
      (fun w2 f2 => installer_process_file_writes w2 api B R iDir oDir f2 sp)
      (fun w1 w2 f2 hf2 hw2 => installer_process_file_congr w1 w2 api B R iDir oDir f2 sp hf2 hw2)
      w docs w (fun a _ => rfl) rfl hdisjInst fo hfo
  · intro fo hfo
    exact run_batch_outcomes (gpt_main_step api B R iDir oDir sp)
      (fun a => inPath iDir a) (fun b => outPathMain oDir b)
      (fun w2 f2 p hp => gpt_main_process_file_files w2 api B R iDir oDir f2 sp p hp)
      (fun w2 f2 => gpt_main_process_file_writes w2 api B R iDir oDir f2 sp)
      (fun w1 w2 f2 hf2 hw2 => gpt_main_process_file_congr w1 w2 api B R iDir oDir f2 sp hf2 hw2)
      w docs w (fun a _ => rfl) rfl hdisjMain fo hfo

/-- C1 witness: two documents under "in" with outputs under "out" (no
path collisions), a failing remote service, concrete parameters. -/
theorem C1_failure_isolation_witness :
    ((installer_process_file
      ⟨fun p => if p = "in/a" then some (FsEntry.utf8File "ha")
        else if p = "in/b" then some (FsEntry.utf8File "hb") else none, fun _ => WriteResult.ok⟩
      (fun _ _ _ => Except.error (PyExc.rateLimitError "rl")) 2 3 "in" "out" "a" "s").1.success = false →
      ∃ m, Event.logError m ∈ (installer_process_file
        ⟨fun p => if p = "in/a" then some (FsEntry.utf8File "ha")
          else if p = "in/b" then some (FsEntry.utf8File "hb") else none, fun _ => WriteResult.ok⟩
        (fun _ _ _ => Except.error (PyExc.rateLimitError "rl")) 2 3 "in" "out" "a" "s").1.events ∧
        MentionsStr m "a") ∧
    ((gpt_main_process_file
      ⟨fun p => if p = "in/a" then some (FsEntry.utf8File "ha")
        else if p = "in/b" then some (FsEntry.utf8File "hb") else none, fun _ => WriteResult.ok⟩
      (fun _ _ _ => Except.error (PyExc.rateLimitError "rl")) 2 3 "in" "out" "a" "s").1.success = false →
      ∃ m, Event.logError m ∈ (gpt_main_process_file
        ⟨fun p => if p = "in/a" then some (FsEntry.utf8File "ha")
          else if p = "in/b" then some (FsEntry.utf8File "hb") else none, fun _ => WriteResult.ok⟩
        (fun _ _ _ => Except.error (PyExc.rateLimitError "rl")) 2 3 "in" "out" "a" "s").1.events ∧
        MentionsStr m "a") ∧
    (∀ fo ∈ (run_batch (installer_step
        (fun _ _ _ => Except.error (PyExc.rateLimitError "rl")) 2 3 "in" "out" "s")
        ⟨fun p => if p = "in/a" then some (FsEntry.utf8File "ha")
          else if p = "in/b" then some (FsEntry.utf8File "hb") else none, fun _ => WriteResult.ok⟩
        ["a", "b"]).1,
      fo.2 = (installer_process_file
        ⟨fun p => if p = "in/a" then some (FsEntry.utf8File "ha")
          else if p = "in/b" then some (FsEntry.utf8File "hb") else none, fun _ => WriteResult.ok⟩
        (fun _ _ _ => Except.error (PyExc.rateLimitError "rl")) 2 3 "in" "out" fo.1 "s").1) ∧
    (∀ fo ∈ (run_batch (gpt_main_step
        (fun _ _ _ => Except.error (PyExc.rateLimitError "rl")) 2 3 "in" "out" "s")
        ⟨fun p => if p = "in/a" then some (FsEntry.utf8File "ha")
          else if p = "in/b" then some (FsEntry.utf8File "hb") else none, fun _ => WriteResult.ok⟩
        ["a", "b"]).1,
      fo.2 = (gpt_main_process_file
        ⟨fun p => if p = "in/a" then some (FsEntry.utf8File "ha")
          else if p = "in/b" then some (FsEntry.utf8File "hb") else none, fun _ => WriteResult.ok⟩
        (fun _ _ _ => Except.error (PyExc.rateLimitError "rl")) 2 3 "in" "out" fo.1 "s").1) :=
  C1_failure_isolation
    ⟨fun p => if p = "in/a" then some (FsEntry.utf8File "ha")
      else if p = "in/b" then some (FsEntry.utf8File "hb") else none, fun _ => WriteResult.ok⟩
    (fun _ _ _ => Except.error (PyExc.rateLimitError "rl")) 2 3 "in" "out" "a" "s" ["a", "b"]
    (by decide) (by decide)
